import Mathlib

/-!
# OpenMM C / Fortran wrapper (`examples/OpenMM_CWrapper.cpp`)

A shallow embedding of the container and string helpers of the wrapper, of its
table of exported functions, and of the force-object wrappers run against an
abstract engine.

Conventions of the embedding.

* A C `int` is an `Int`.  The string functions narrow a size to `int` with
  `sizeToInt`, the 32-bit two's complement conversion: `(int)s.size()` and
  `int len = std::strlen(in)`.  The size of a vector is taken to be
  representable as `int`, so the cast `(int)a->size()` keeps its value.
* A C `double` is an arbitrary type `D`; the scaling helpers only need its
  multiplication.
* `std::vector<T>` is `List T`, `std::string` is `List Char`.
* An access `v[i]` outside `0 <= i < v.size()`, a read past the end of an input
  array and `std::strlen` of a buffer without terminator have no defined
  behaviour; the functions doing them return `none` there.
* A `char*` output buffer is the memory `Int → Char` around the pointer; the
  store `buf[i] = c` is `Function.update buf i c`.
-/

namespace OpenMMWrapper

/-! ## Vectors of three doubles -/

/-- The C type `OpenMM_Vec3`, an array `double[3]`. -/
structure OpenMM_Vec3 (D : Type) where
  e0 : D
  e1 : D
  e2 : D
deriving DecidableEq, Repr

/-- The engine class `OpenMM::Vec3`, three doubles read with `operator[]`. -/
structure Vec3 (D : Type) where
  e0 : D
  e1 : D
  e2 : D
deriving DecidableEq, Repr

/-- Function `toVec3`: `Vec3(src[0], src[1], src[2])`. -/
def toVec3 {D : Type} (src : OpenMM_Vec3 D) : Vec3 D :=
  ⟨src.e0, src.e1, src.e2⟩

/-- Function `scaleToVec3`: `Vec3(s*src[0], s*src[1], s*src[2])`. -/
def scaleToVec3 {D : Type} [Mul D] (src : OpenMM_Vec3 D) (s : D) : Vec3 D :=
  ⟨s * src.e0, s * src.e1, s * src.e2⟩

/-- Function `fromVec3`: `dest[0] = src[0]; dest[1] = src[1]; dest[2] = src[2];`. -/
def fromVec3 {D : Type} (src : Vec3 D) : OpenMM_Vec3 D :=
  ⟨src.e0, src.e1, src.e2⟩

/-- Function `scaleFromVec3`: `dest[0] = s*src[0]; dest[1] = s*src[1]; dest[2] = s*src[2];`. -/
def scaleFromVec3 {D : Type} [Mul D] (src : Vec3 D) (s : D) : OpenMM_Vec3 D :=
  ⟨s * src.e0, s * src.e1, s * src.e2⟩

/-- The cast `*(const Vec3*)v` of a `double[3]`: the same three doubles seen as a `Vec3`. -/
def asVec3 {D : Type} (v : OpenMM_Vec3 D) : Vec3 D :=
  ⟨v.e0, v.e1, v.e2⟩

/-! ## `std::vector` element access with an `int` index -/

/-- The read `v[i]` of a `std::vector`; `none` outside `0 <= i < v.size()`. -/
def vecRead {α : Type} (v : List α) (i : Int) : Option α :=
  if 0 ≤ i then v[i.toNat]? else none

/-- The store `v[i] = x` of a `std::vector`; `none` outside `0 <= i < v.size()`. -/
def vecWrite {α : Type} (v : List α) (i : Int) (x : α) : Option (List α) :=
  if 0 ≤ i ∧ i < (v.length : Int) then some (v.set i.toNat x) else none

/-! ## `std::vector<OpenMM::Vec3>` -/

/-- Function `OpenMM_Vec3Array_create`: `new std::vector<Vec3>(n)`, `n` copies of the
default-constructed `Vec3` (`dflt`, an engine value); a negative `n` is not a size. -/
def OpenMM_Vec3Array_create {D : Type} (dflt : Vec3 D) (n : Int) : Option (List (Vec3 D)) :=
  if 0 ≤ n then some (List.replicate n.toNat dflt) else none

/-- Function `openmm_vec3array_create_`: `a = OpenMM_Vec3Array_create(n)`. -/
def openmm_vec3array_create_ {D : Type} (dflt : Vec3 D) (n : Int) : Option (List (Vec3 D)) :=
  OpenMM_Vec3Array_create dflt n

/-- Function `OpenMM_Vec3Array_size`: `(int)a->size()`. -/
def OpenMM_Vec3Array_size {D : Type} (a : List (Vec3 D)) : Int :=
  (a.length : Int)

/-- Function `openmm_vec3array_size_`. -/
def openmm_vec3array_size_ {D : Type} (a : List (Vec3 D)) : Int :=
  OpenMM_Vec3Array_size a

/-- Function `OpenMM_Vec3Array_append`: `a->push_back(*(const Vec3*)v)`. -/
def OpenMM_Vec3Array_append {D : Type} (a : List (Vec3 D)) (v : OpenMM_Vec3 D) : List (Vec3 D) :=
  a ++ [asVec3 v]

/-- Function `openmm_vec3array_append_`. -/
def openmm_vec3array_append_ {D : Type} (a : List (Vec3 D)) (v : OpenMM_Vec3 D) : List (Vec3 D) :=
  OpenMM_Vec3Array_append a v

/-- Function `OpenMM_Vec3Array_get`: `fromVec3((*a)[i0], ov3)`; the result is the value left in `ov3`. -/
def OpenMM_Vec3Array_get {D : Type} (a : List (Vec3 D)) (i0 : Int) : Option (OpenMM_Vec3 D) :=
  (vecRead a i0).map fromVec3

/-- Function `openmm_vec3array_get_`: `OpenMM_Vec3Array_get(a, i1-1, ov3)`. -/
def openmm_vec3array_get_ {D : Type} (a : List (Vec3 D)) (i1 : Int) : Option (OpenMM_Vec3 D) :=
  OpenMM_Vec3Array_get a (i1 - 1)

/-- Function `OpenMM_Vec3Array_getScaled`: `scaleFromVec3((*a)[i0], s, ov3)`. -/
def OpenMM_Vec3Array_getScaled {D : Type} [Mul D] (a : List (Vec3 D)) (i0 : Int) (s : D) :
    Option (OpenMM_Vec3 D) :=
  (vecRead a i0).map (fun e => scaleFromVec3 e s)

/-- Function `openmm_vec3array_getscaled_`: `OpenMM_Vec3Array_getScaled(a, i1-1, s, ov3)`. -/
def openmm_vec3array_getscaled_ {D : Type} [Mul D] (a : List (Vec3 D)) (i1 : Int) (s : D) :
    Option (OpenMM_Vec3 D) :=
  OpenMM_Vec3Array_getScaled a (i1 - 1) s

/-- Function `OpenMM_Vec3Array_set`: `(*a)[i0] = toVec3(v3)`. -/
def OpenMM_Vec3Array_set {D : Type} (a : List (Vec3 D)) (i0 : Int) (v3 : OpenMM_Vec3 D) :
    Option (List (Vec3 D)) :=
  vecWrite a i0 (toVec3 v3)

/-- Function `openmm_vec3array_set_`: `OpenMM_Vec3Array_set(a, i1-1, v3)`. -/
def openmm_vec3array_set_ {D : Type} (a : List (Vec3 D)) (i1 : Int) (v3 : OpenMM_Vec3 D) :
    Option (List (Vec3 D)) :=
  OpenMM_Vec3Array_set a (i1 - 1) v3

/-- Function `OpenMM_Vec3Array_setScaled`: `(*a)[i0] = scaleToVec3(v3, s)`. -/
def OpenMM_Vec3Array_setScaled {D : Type} [Mul D] (a : List (Vec3 D)) (i0 : Int)
    (v3 : OpenMM_Vec3 D) (s : D) : Option (List (Vec3 D)) :=
  vecWrite a i0 (scaleToVec3 v3 s)

/-- Function `openmm_vec3array_setscaled_`: `OpenMM_Vec3Array_setScaled(a, i1-1, v3, s)`. -/
def openmm_vec3array_setscaled_ {D : Type} [Mul D] (a : List (Vec3 D)) (i1 : Int)
    (v3 : OpenMM_Vec3 D) (s : D) : Option (List (Vec3 D)) :=
  OpenMM_Vec3Array_setScaled a (i1 - 1) v3 s

/-! ## `std::vector< std::pair<int,int> >` -/

/-- The typedef `IntPairs`. -/
abbrev IntPairs := List (Int × Int)

/-- Function `OpenMM_BondArray_create`: `new IntPairs(n)`, `n` value-initialised pairs. -/
def OpenMM_BondArray_create (n : Int) : Option IntPairs :=
  if 0 ≤ n then some (List.replicate n.toNat ((0 : Int), (0 : Int))) else none

/-- Function `openmm_bondarray_create_`. -/
def openmm_bondarray_create_ (n : Int) : Option IntPairs :=
  OpenMM_BondArray_create n

/-- Function `OPENMM_BONDARRAY_CREATE`. -/
def OPENMM_BONDARRAY_CREATE (n : Int) : Option IntPairs :=
  OpenMM_BondArray_create n

/-- Function `OpenMM_BondArray_size`: `(int)a->size()`. -/
def OpenMM_BondArray_size (a : IntPairs) : Int :=
  (a.length : Int)

/-- Function `openmm_bondarray_size_`. -/
def openmm_bondarray_size_ (a : IntPairs) : Int :=
  OpenMM_BondArray_size a

/-- Function `OPENMM_BONDARRAY_SIZE`. -/
def OPENMM_BONDARRAY_SIZE (a : IntPairs) : Int :=
  OpenMM_BondArray_size a

/-- Function `OpenMM_BondArray_append`: `a->push_back(std::make_pair(p1,p2))`. -/
def OpenMM_BondArray_append (a : IntPairs) (p1 p2 : Int) : IntPairs :=
  a ++ [(p1, p2)]

/-- Function `openmm_bondarray_append_`. -/
def openmm_bondarray_append_ (a : IntPairs) (p1 p2 : Int) : IntPairs :=
  OpenMM_BondArray_append a p1 p2

/-- Function `OPENMM_BONDARRAY_APPEND`. -/
def OPENMM_BONDARRAY_APPEND (a : IntPairs) (p1 p2 : Int) : IntPairs :=
  OpenMM_BondArray_append a p1 p2

/-- Function `OpenMM_BondArray_get`: `*p1 = (*a)[i0].first; *p2 = (*a)[i0].second;`; the
result is the pair of values left in `*p1` and `*p2`. -/
def OpenMM_BondArray_get (a : IntPairs) (i0 : Int) : Option (Int × Int) :=
  (vecRead a i0).bind fun e1 => (vecRead a i0).map fun e2 => (e1.1, e2.2)

/-- Function `openmm_bondarray_get_`: `OpenMM_BondArray_get(a, i1-1, &p1, &p2)`. -/
def openmm_bondarray_get_ (a : IntPairs) (i1 : Int) : Option (Int × Int) :=
  OpenMM_BondArray_get a (i1 - 1)

/-- Function `OPENMM_BONDARRAY_GET`: `OpenMM_BondArray_get(a, i1-1, &p1, &p2)`. -/
def OPENMM_BONDARRAY_GET (a : IntPairs) (i1 : Int) : Option (Int × Int) :=
  OpenMM_BondArray_get a (i1 - 1)

/-- Function `OpenMM_BondArray_set`: `(*a)[i0] = std::make_pair(p1,p2)`. -/
def OpenMM_BondArray_set (a : IntPairs) (i0 : Int) (p1 p2 : Int) : Option IntPairs :=
  vecWrite a i0 (p1, p2)

/-- Function `openmm_bondarray_set_`: `OpenMM_BondArray_set(a, i1-1, p1, p2)`. -/
def openmm_bondarray_set_ (a : IntPairs) (i1 : Int) (p1 p2 : Int) : Option IntPairs :=
  OpenMM_BondArray_set a (i1 - 1) p1 p2

/-- Function `OPENMM_BONDARRAY_SET`: `OpenMM_BondArray_set(a, i1-1, p1, p2)`. -/
def OPENMM_BONDARRAY_SET (a : IntPairs) (i1 : Int) (p1 p2 : Int) : Option IntPairs :=
  OpenMM_BondArray_set a (i1 - 1) p1 p2

/-! ## `std::string` -/

/-- The terminator `'\0'` of a C string. -/
def NUL : Char := Char.ofNat 0

/-- The loop `while (len > 0 && s[len-1]==' ') --len;`, returning the final `len`. -/
def stripLoop (s : List Char) : Nat → Nat
  | 0 => 0
  | len + 1 => if s.getD len NUL = ' ' then stripLoop s len else len + 1

/-- Function `openmm_string_set_`: set the string from a fixed-size Fortran character array,
stripping trailing blanks.
```
s = std::string(in, in+len);
while (len > 0 && s[len-1]==' ') --len;
s.erase(len);
```
`inp` is the memory at `in`; the range `[in, in+len)` has to be a valid range
inside it. -/
def openmm_string_set_ (inp : List Char) (len : Int) : Option (List Char) :=
  if 0 ≤ len ∧ len ≤ (inp.length : Int) then
    let s := inp.take len.toNat
    some (s.take (stripLoop s len.toNat))
  else none

/-! ## The exported functions

Every function defined inside the `extern "C"` block of the file, with the line
of its definition and the functions of the file that its body calls. -/

/-- A function definition of the wrapper. -/
structure FnDef where
  name : String
  line : Nat
  calls : List String
deriving DecidableEq, Repr

/-- The functions of the section `std::vector<OpenMM::Vec3>`. -/
def vec3ArrayFns : List FnDef := [
  ⟨"OpenMM_Vec3Array_create", 61, []⟩,
  ⟨"openmm_vec3array_create_", 63, ["OpenMM_Vec3Array_create"]⟩,
  ⟨"OpenMM_Vec3Array_size", 66, []⟩,
  ⟨"openmm_vec3array_size_", 68, ["OpenMM_Vec3Array_size"]⟩,
  ⟨"OpenMM_Vec3Array_resize", 71, []⟩,
  ⟨"openmm_vec3array_resize_", 73, ["OpenMM_Vec3Array_resize"]⟩,
  ⟨"OpenMM_Vec3Array_destroy", 76, []⟩,
  ⟨"openmm_vec3array_destroy_", 78, ["OpenMM_Vec3Array_destroy"]⟩,
  ⟨"OpenMM_Vec3Array_append", 81, []⟩,
  ⟨"openmm_vec3array_append_", 83, ["OpenMM_Vec3Array_append"]⟩,
  ⟨"OpenMM_Vec3Array_get", 87, []⟩,
  ⟨"openmm_vec3array_get_", 90, ["OpenMM_Vec3Array_get"]⟩,
  ⟨"OpenMM_Vec3Array_getScaled", 95, []⟩,
  ⟨"openmm_vec3array_getscaled_", 98, ["OpenMM_Vec3Array_getScaled"]⟩,
  ⟨"OpenMM_Vec3Array_set", 102, []⟩,
  ⟨"openmm_vec3array_set_", 104, ["OpenMM_Vec3Array_set"]⟩,
  ⟨"OpenMM_Vec3Array_setScaled", 109, []⟩,
  ⟨"openmm_vec3array_setscaled_", 111, ["OpenMM_Vec3Array_setScaled"]⟩,
  ⟨"OpenMM_Vec3_scale", 114, []⟩,
  ⟨"openmm_vec3_scale_", 116, []⟩]

/-- The functions of the section `std::vector< std::pair<int,int> >`. -/
def bondArrayFns : List FnDef := [
  ⟨"OpenMM_BondArray_create", 130, []⟩,
  ⟨"openmm_bondarray_create_", 132, ["OpenMM_BondArray_create"]⟩,
  ⟨"OPENMM_BONDARRAY_CREATE", 134, ["OpenMM_BondArray_create"]⟩,
  ⟨"OpenMM_BondArray_size", 137, []⟩,
  ⟨"openmm_bondarray_size_", 139, ["OpenMM_BondArray_size"]⟩,
  ⟨"OPENMM_BONDARRAY_SIZE", 141, ["OpenMM_BondArray_size"]⟩,
  ⟨"OpenMM_BondArray_resize", 144, []⟩,
  ⟨"openmm_bondarray_resize_", 146, ["OpenMM_BondArray_resize"]⟩,
  ⟨"OPENMM_BONDARRAY_RESIZE", 148, ["OpenMM_BondArray_resize"]⟩,
  ⟨"OpenMM_BondArray_destroy", 151, []⟩,
  ⟨"openmm_bondarray_destroy_", 153, ["OpenMM_BondArray_destroy"]⟩,
  ⟨"OPENMM_BONDARRAY_DESTROY", 155, ["OpenMM_BondArray_destroy"]⟩,
  ⟨"OpenMM_BondArray_append", 158, []⟩,
  ⟨"openmm_bondarray_append_", 160, ["OpenMM_BondArray_append"]⟩,
  ⟨"OPENMM_BONDARRAY_APPEND", 162, ["OpenMM_BondArray_append"]⟩,
  ⟨"OpenMM_BondArray_get", 166, []⟩,
  ⟨"openmm_bondarray_get_", 170, ["OpenMM_BondArray_get"]⟩,
  ⟨"OPENMM_BONDARRAY_GET", 172, ["OpenMM_BondArray_get"]⟩,
  ⟨"OpenMM_BondArray_set", 176, []⟩,
  ⟨"openmm_bondarray_set_", 178, ["OpenMM_BondArray_set"]⟩,
  ⟨"OPENMM_BONDARRAY_SET", 180, ["OpenMM_BondArray_set"]⟩]

/-- The functions of the section `std::string`. -/
def stringFns : List FnDef := [
  ⟨"OpenMM_String_create", 191, []⟩,
  ⟨"openmm_string_create_", 195, []⟩,
  ⟨"OpenMM_String_destroy", 203, []⟩,
  ⟨"openmm_string_destroy_", 206, ["OpenMM_String_destroy"]⟩,
  ⟨"OpenMM_String_getAsC", 207, []⟩,
  ⟨"OpenMM_String_length", 210, []⟩,
  ⟨"openmm_string_length_", 213, ["OpenMM_String_length"]⟩,
  ⟨"OpenMM_String_get", 217, []⟩,
  ⟨"openmm_string_get_", 227, []⟩,
  ⟨"OpenMM_String_set", 238, []⟩,
  ⟨"openmm_string_set_", 248, []⟩]

/-- The functions of the section `OpenMM::Platform`. -/
def platformFns : List FnDef := [
  ⟨"OpenMM_Platform_loadPluginsFromDirectory", 260, []⟩,
  ⟨"OpenMM_Platform_getDefaultPluginsDirectory", 263, []⟩,
  ⟨"openmm_platform_loadpluginsfromdirectory_", 270, ["OpenMM_Platform_loadPluginsFromDirectory", "OpenMM_String_getAsC"]⟩,
  ⟨"openmm_platform_getdefaultpluginsdirectory_", 273, ["OpenMM_String_set", "OpenMM_Platform_getDefaultPluginsDirectory"]⟩]

/-- The functions of the section `OpenMM::System`. -/
def systemFns : List FnDef := [
  ⟨"OpenMM_System_create", 281, []⟩,
  ⟨"openmm_system_create_", 284, ["OpenMM_System_create"]⟩,
  ⟨"OpenMM_System_destroy", 286, []⟩,
  ⟨"openmm_system_destroy_", 289, ["OpenMM_System_destroy"]⟩,
  ⟨"OpenMM_System_addForce", 292, []⟩,
  ⟨"openmm_system_addforce_", 295, ["OpenMM_System_addForce"]⟩,
  ⟨"OpenMM_System_addParticle", 298, []⟩,
  ⟨"openmm_system_addparticle_", 301, ["OpenMM_System_addParticle"]⟩,
  ⟨"OpenMM_System_getNumParticles", 304, []⟩,
  ⟨"openmm_system_getnumparticles_", 307, ["OpenMM_System_getNumParticles"]⟩]

/-- The functions of the section `OpenMM::NonbondedForce`. -/
def nonbondedForceFns : List FnDef := [
  ⟨"OpenMM_NonbondedForce_create", 315, []⟩,
  ⟨"openmm_nonbondedforce_create_", 317, ["OpenMM_NonbondedForce_create"]⟩,
  ⟨"OPENMM_NONBONDEDFORCE_CREATE", 319, ["OpenMM_NonbondedForce_create"]⟩,
  ⟨"OpenMM_NonbondedForce_destroy", 323, []⟩,
  ⟨"openmm_nonbondedforce_destroy_", 325, ["OpenMM_NonbondedForce_destroy"]⟩,
  ⟨"OPENMM_NONBONDEDFORCE_DESTROY", 327, ["OpenMM_NonbondedForce_destroy"]⟩,
  ⟨"openmm_nonbondedforce_asforce_", 331, []⟩,
  ⟨"OPENMM_NONBONDEDFORCE_ASFORCE", 334, []⟩,
  ⟨"OpenMM_NonbondedForce_setNonbondedMethod", 339, []⟩,
  ⟨"openmm_nonbondedforce_setnonbondedmethod_", 342, ["OpenMM_NonbondedForce_setNonbondedMethod"]⟩,
  ⟨"OPENMM_NONBONDEDFORCE_SETNONBONDEDMETHOD", 344, ["OpenMM_NonbondedForce_setNonbondedMethod"]⟩,
  ⟨"OpenMM_NonbondedForce_getNonbondedMethod", 349, []⟩,
  ⟨"openmm_nonbondedforce_getnonbondedmethod_", 351, ["OpenMM_NonbondedForce_getNonbondedMethod"]⟩,
  ⟨"OPENMM_NONBONDEDFORCE_GETNONBONDEDMETHOD", 353, ["OpenMM_NonbondedForce_getNonbondedMethod"]⟩,
  ⟨"OpenMM_NonbondedForce_setCutoffDistance", 357, []⟩,
  ⟨"openmm_nonbondedforce_setcutoffdistance_", 359, ["OpenMM_NonbondedForce_setCutoffDistance"]⟩,
  ⟨"OPENMM_NONBONDEDFORCE_SETCUTOFFDISTANCE", 361, ["OpenMM_NonbondedForce_setCutoffDistance"]⟩,
  ⟨"OpenMM_NonbondedForce_getCutoffDistance", 365, []⟩,
  ⟨"openmm_nonbondedforce_getcutoffdistance_", 367, ["OpenMM_NonbondedForce_getCutoffDistance"]⟩,
  ⟨"OPENMM_NONBONDEDFORCE_GETCUTOFFDISTANCE", 369, ["OpenMM_NonbondedForce_getCutoffDistance"]⟩,
  ⟨"OpenMM_NonbondedForce_setPeriodicBoxVectors", 373, []⟩,
  ⟨"openmm_nonbondedforce_setperiodicboxvectors_", 376, ["OpenMM_NonbondedForce_setPeriodicBoxVectors"]⟩,
  ⟨"OPENMM_NONBONDEDFORCE_SETPERIODICBOXVECTORS", 379, ["OpenMM_NonbondedForce_setPeriodicBoxVectors"]⟩,
  ⟨"OpenMM_NonbondedForce_getPeriodicBoxVectors", 384, []⟩,
  ⟨"openmm_nonbondedforce_getperiodicboxvectors_", 387, ["OpenMM_NonbondedForce_getPeriodicBoxVectors"]⟩,
  ⟨"OPENMM_NONBONDEDFORCE_GETPERIODICBOXVECTORS", 390, ["OpenMM_NonbondedForce_getPeriodicBoxVectors"]⟩,
  ⟨"OpenMM_NonbondedForce_addParticle", 395, []⟩,
  ⟨"openmm_nonbondedforce_addparticle_", 398, ["OpenMM_NonbondedForce_addParticle"]⟩,
  ⟨"OPENMM_NONBONDEDFORCE_ADDPARTICLE", 401, ["OpenMM_NonbondedForce_addParticle"]⟩,
  ⟨"OpenMM_NonbondedForce_setParticleParameters", 406, []⟩,
  ⟨"openmm_nonbondedforce_setparticleparameters_", 409, ["OpenMM_NonbondedForce_setParticleParameters"]⟩,
  ⟨"OPENMM_NONBONDEDFORCE_SETPARTICLEPARAMETERS", 412, ["OpenMM_NonbondedForce_setParticleParameters"]⟩,
  ⟨"OpenMM_NonbondedForce_getParticleParameters", 417, []⟩,
  ⟨"openmm_nonbondedforce_getparticleparameters_", 420, ["OpenMM_NonbondedForce_getParticleParameters"]⟩,
  ⟨"OPENMM_NONBONDEDFORCE_GETPARTICLEPARAMETERS", 423, ["OpenMM_NonbondedForce_getParticleParameters"]⟩,
  ⟨"OpenMM_NonbondedForce_getNumParticles", 428, []⟩,
  ⟨"openmm_nonbondedforce_getnumparticles_", 430, ["OpenMM_NonbondedForce_getNumParticles"]⟩,
  ⟨"OPENMM_NONBONDEDFORCE_GETNUMPARTICLES", 432, ["OpenMM_NonbondedForce_getNumParticles"]⟩,
  ⟨"OpenMM_NonbondedForce_getNumExceptions", 436, []⟩,
  ⟨"openmm_nonbondedforce_getnumexceptions_", 438, ["OpenMM_NonbondedForce_getNumExceptions"]⟩,
  ⟨"OPENMM_NONBONDEDFORCE_GETNUMEXCEPTIONS", 440, ["OpenMM_NonbondedForce_getNumExceptions"]⟩,
  ⟨"OpenMM_NonbondedForce_addException", 444, []⟩,
  ⟨"openmm_nonbondedforce_addexception_", 447, ["OpenMM_NonbondedForce_addException"]⟩,
  ⟨"OPENMM_NONBONDEDFORCE_ADDEXCEPTION", 450, ["OpenMM_NonbondedForce_addException"]⟩,
  ⟨"OpenMM_NonbondedForce_setExceptionParameters", 455, []⟩,
  ⟨"openmm_nonbondedforce_setexceptionparameters_", 458, ["OpenMM_NonbondedForce_setExceptionParameters"]⟩,
  ⟨"OPENMM_NONBONDEDFORCE_SETEXCEPTIONPARAMETERS", 461, ["OpenMM_NonbondedForce_setExceptionParameters"]⟩,
  ⟨"OpenMM_NonbondedForce_getExceptionParameters", 466, []⟩,
  ⟨"openmm_nonbondedforce_getexceptionparameters_", 469, ["OpenMM_NonbondedForce_getExceptionParameters"]⟩,
  ⟨"OPENMM_NONBONDEDFORCE_GETEXCEPTIONPARAMETERS", 472, ["OpenMM_NonbondedForce_getExceptionParameters"]⟩,
  ⟨"OpenMM_NonbondedForces_createExceptionsFromBonds", 477, []⟩,
  ⟨"openmm_nonbondedforces_createexceptionsfrombonds_", 483, ["OpenMM_NonbondedForces_createExceptionsFromBonds"]⟩,
  ⟨"OPENMM_NONBONDEDFORCES_CREATEEXCEPTIONSFROMBONDS", 486, ["OpenMM_NonbondedForces_createExceptionsFromBonds"]⟩]

/-- The functions of the section `OpenMM::GBSAOBCForce`. -/
def gbsaobcForceFns : List FnDef := [
  ⟨"OpenMM_GBSAOBCForce_create", 495, []⟩,
  ⟨"openmm_gbsaobcforce_create_", 497, ["OpenMM_GBSAOBCForce_create"]⟩,
  ⟨"OpenMM_GBSAOBCForce_destroy", 501, []⟩,
  ⟨"openmm_gbsaobcforce_destroy_", 503, ["OpenMM_GBSAOBCForce_destroy"]⟩,
  ⟨"openmm_gbsaobcforce_asforce_", 507, []⟩,
  ⟨"OpenMM_GBSAOBCForce_setSolventDielectric", 512, []⟩,
  ⟨"openmm_gbsaobcforce_setsolventdielectric_", 514, ["OpenMM_GBSAOBCForce_setSolventDielectric"]⟩,
  ⟨"OpenMM_GBSAOBCForce_setSoluteDielectric", 518, []⟩,
  ⟨"openmm_gbsaobcforce_setsolutedielectric_", 520, ["OpenMM_GBSAOBCForce_setSoluteDielectric"]⟩,
  ⟨"OpenMM_GBSAOBCForce_addParticle", 524, []⟩,
  ⟨"openmm_gbsaobcforce_addparticle_", 527, ["OpenMM_GBSAOBCForce_addParticle"]⟩]

/-- The functions of the section `OpenMM::HarmonicBondForce`. -/
def harmonicBondForceFns : List FnDef := [
  ⟨"OpenMM_HarmonicBondForce_create", 537, []⟩,
  ⟨"openmm_harmonicbondforce_create_", 539, ["OpenMM_HarmonicBondForce_create"]⟩,
  ⟨"OPENMM_HARMONICBONDFORCE_CREATE", 541, ["OpenMM_HarmonicBondForce_create"]⟩,
  ⟨"OpenMM_HarmonicBondForce_destroy", 545, []⟩,
  ⟨"openmm_harmonicbondforce_destroy_", 547, ["OpenMM_HarmonicBondForce_destroy"]⟩,
  ⟨"OPENMM_HARMONICBONDFORCE_DESTROY", 549, ["OpenMM_HarmonicBondForce_destroy"]⟩,
  ⟨"OpenMM_HarmonicBondForce_getNumBonds", 553, []⟩,
  ⟨"openmm_harmonicbondforce_getnumbonds_", 555, ["OpenMM_HarmonicBondForce_getNumBonds"]⟩,
  ⟨"OPENMM_HARMONICBONDFORCE_GETNUMBONDS", 557, ["OpenMM_HarmonicBondForce_getNumBonds"]⟩,
  ⟨"OpenMM_HarmonicBondForce_addBond", 561, []⟩,
  ⟨"openmm_harmonicbondforce_addbond_", 563, ["OpenMM_HarmonicBondForce_addBond"]⟩,
  ⟨"OPENMM_HARMONICBONDFORCE_ADDBOND", 565, ["OpenMM_HarmonicBondForce_addBond"]⟩,
  ⟨"OpenMM_HarmonicBondForce_setBondParameters", 569, []⟩,
  ⟨"openmm_harmonicbondforce_setbondparameters_", 571, ["OpenMM_HarmonicBondForce_setBondParameters"]⟩,
  ⟨"OPENMM_HARMONICBONDFORCE_SETBONDPARAMETERS", 573, ["OpenMM_HarmonicBondForce_setBondParameters"]⟩,
  ⟨"OpenMM_HarmonicBondForce_getBondParameters", 577, []⟩,
  ⟨"openmm_harmonicbondforce_getbondparameters_", 580, ["OpenMM_HarmonicBondForce_getBondParameters"]⟩,
  ⟨"OPENMM_HARMONICBONDFORCE_GETBONDPARAMETERS", 582, ["OpenMM_HarmonicBondForce_getBondParameters"]⟩]

/-- The functions of the section `OpenMM::HarmonicAngleForce`. -/
def harmonicAngleForceFns : List FnDef := [
  ⟨"OpenMM_HarmonicAngleForce_create", 592, []⟩,
  ⟨"openmm_harmonicangleforce_create_", 594, ["OpenMM_HarmonicAngleForce_create"]⟩,
  ⟨"OPENMM_HARMONICANGLEFORCE_CREATE", 596, ["OpenMM_HarmonicAngleForce_create"]⟩,
  ⟨"OpenMM_HarmonicAngleForce_destroy", 600, []⟩,
  ⟨"openmm_harmonicangleforce_destroy_", 602, ["OpenMM_HarmonicAngleForce_destroy"]⟩,
  ⟨"OPENMM_HARMONICANGLEFORCE_DESTROY", 604, ["OpenMM_HarmonicAngleForce_destroy"]⟩,
  ⟨"OpenMM_HarmonicAngleForce_getNumAngles", 608, []⟩,
  ⟨"openmm_harmonicangleforce_getnumangles_", 610, ["OpenMM_HarmonicAngleForce_getNumAngles"]⟩,
  ⟨"OPENMM_HARMONICANGLEFORCE_GETNUMANGLES", 612, ["OpenMM_HarmonicAngleForce_getNumAngles"]⟩,
  ⟨"OpenMM_HarmonicAngleForce_addAngle", 616, []⟩,
  ⟨"openmm_harmonicangleforce_addangle_", 618, ["OpenMM_HarmonicAngleForce_addAngle"]⟩,
  ⟨"OPENMM_HARMONICANGLEFORCE_ADDANGLE", 620, ["OpenMM_HarmonicAngleForce_addAngle"]⟩,
  ⟨"OpenMM_HarmonicAngleForce_setAngleParameters", 624, []⟩,
  ⟨"openmm_harmonicangleforce_setangleparameters_", 626, ["OpenMM_HarmonicAngleForce_setAngleParameters"]⟩,
  ⟨"OPENMM_HARMONICANGLEFORCE_SETANGLEPARAMETERS", 628, ["OpenMM_HarmonicAngleForce_setAngleParameters"]⟩,
  ⟨"OpenMM_HarmonicAngleForce_getAngleParameters", 632, []⟩,
  ⟨"openmm_harmonicangleforce_getangleparameters_", 635, ["OpenMM_HarmonicAngleForce_getAngleParameters"]⟩,
  ⟨"OPENMM_HARMONICANGLEFORCE_GETANGLEPARAMETERS", 637, ["OpenMM_HarmonicAngleForce_getAngleParameters"]⟩]

/-- The functions of the section `OpenMM::PeriodicTorsionForce`. -/
def periodicTorsionForceFns : List FnDef := [
  ⟨"OpenMM_PeriodicTorsionForce_create", 648, []⟩,
  ⟨"openmm_periodictorsionforce_create_", 650, ["OpenMM_PeriodicTorsionForce_create"]⟩,
  ⟨"OPENMM_PERIODICTORSIONFORCE_CREATE", 652, ["OpenMM_PeriodicTorsionForce_create"]⟩,
  ⟨"OpenMM_PeriodicTorsionForce_destroy", 656, []⟩,
  ⟨"openmm_periodictorsionforce_destroy_", 658, ["OpenMM_PeriodicTorsionForce_destroy"]⟩,
  ⟨"OPENMM_PERIODICTORSIONFORCE_DESTROY", 660, ["OpenMM_PeriodicTorsionForce_destroy"]⟩,
  ⟨"OpenMM_PeriodicTorsionForce_getNumTorsions", 664, []⟩,
  ⟨"openmm_periodictorsionforce_getnumangles_", 666, ["OpenMM_PeriodicTorsionForce_getNumTorsions"]⟩,
  ⟨"OPENMM_PERIODICTORSIONFORCE_GETNUMANGLES", 668, ["OpenMM_PeriodicTorsionForce_getNumTorsions"]⟩,
  ⟨"OpenMM_PeriodicTorsionForce_addTorsion", 672, []⟩,
  ⟨"openmm_periodictorsionforce_addtorsion_", 674, ["OpenMM_PeriodicTorsionForce_addTorsion"]⟩,
  ⟨"OPENMM_PERIODICTORSIONFORCE_ADDTORSION", 676, ["OpenMM_PeriodicTorsionForce_addTorsion"]⟩,
  ⟨"OpenMM_PeriodicTorsionForce_setTorsionParameters", 680, []⟩,
  ⟨"openmm_periodictorsionforce_settorsionparameters_", 682, ["OpenMM_PeriodicTorsionForce_setTorsionParameters"]⟩,
  ⟨"OPENMM_PERIODICTORSIONFORCE_SETTORSIONPARAMETERS", 684, ["OpenMM_PeriodicTorsionForce_setTorsionParameters"]⟩,
  ⟨"OpenMM_PeriodicTorsionForce_getTorsionParameters", 688, []⟩,
  ⟨"openmm_periodictorsionforce_gettorsionparameters_", 691, ["OpenMM_PeriodicTorsionForce_getTorsionParameters"]⟩,
  ⟨"OPENMM_PERIODICTORSIONFORCE_GETTORSIONPARAMETERS", 693, ["OpenMM_PeriodicTorsionForce_getTorsionParameters"]⟩]

/-- The functions of the section `OpenMM::Integrator, VerletIntegrator and LangevinIntegrator`. -/
def integratorFns : List FnDef := [
  ⟨"OpenMM_Integrator_step", 700, []⟩,
  ⟨"openmm_integrator_step_", 702, ["OpenMM_Integrator_step"]⟩,
  ⟨"OpenMM_Integrator_destroy", 705, []⟩,
  ⟨"openmm_integrator_destroy_", 707, ["OpenMM_Integrator_destroy"]⟩,
  ⟨"OpenMM_VerletIntegrator_create", 711, []⟩,
  ⟨"openmm_verletintegrator_create_", 713, ["OpenMM_VerletIntegrator_create"]⟩,
  ⟨"OpenMM_VerletIntegrator_destroy", 716, []⟩,
  ⟨"openmm_verletintegrator_destroy_", 718, ["OpenMM_VerletIntegrator_destroy"]⟩,
  ⟨"openmm_verletintegrator_asintegrator_", 722, []⟩,
  ⟨"OpenMM_VerletIntegrator_step", 726, []⟩,
  ⟨"openmm_verletintegrator_step_", 728, ["OpenMM_VerletIntegrator_step"]⟩,
  ⟨"OpenMM_LangevinIntegrator_create", 733, []⟩,
  ⟨"openmm_langevinintegrator_create_", 735, ["OpenMM_LangevinIntegrator_create"]⟩,
  ⟨"OpenMM_LangevinIntegrator_destroy", 738, []⟩,
  ⟨"openmm_langevinintegrator_destroy_", 740, ["OpenMM_LangevinIntegrator_destroy"]⟩,
  ⟨"openmm_langevinintegrator_asintegrator_", 744, []⟩,
  ⟨"OpenMM_LangevinIntegrator_step", 748, []⟩,
  ⟨"openmm_langevinintegrator_step_", 750, ["OpenMM_LangevinIntegrator_step"]⟩]

/-- The functions of the section `OpenMM::Context`. -/
def contextFns : List FnDef := [
  ⟨"OpenMM_Context_create", 756, []⟩,
  ⟨"openmm_context_create_", 759, ["OpenMM_Context_create"]⟩,
  ⟨"OpenMM_Context_destroy", 762, []⟩,
  ⟨"openmm_context_destroy_", 765, ["OpenMM_Context_destroy"]⟩,
  ⟨"OpenMM_Context_setPositions", 768, []⟩,
  ⟨"openmm_context_setpositions_", 771, ["OpenMM_Context_setPositions"]⟩,
  ⟨"OpenMM_Context_setVelocities", 774, []⟩,
  ⟨"openmm_context_setvelocities_", 777, ["OpenMM_Context_setVelocities"]⟩,
  ⟨"OpenMM_Context_createState", 782, []⟩,
  ⟨"openmm_context_createstate_", 785, ["OpenMM_Context_createState"]⟩,
  ⟨"OpenMM_Context_getPlatformName", 790, []⟩,
  ⟨"openmm_context_getplatformname_", 797, []⟩]

/-- The functions of the section `OpenMM::State`. -/
def stateFns : List FnDef := [
  ⟨"OpenMM_State_destroy", 807, []⟩,
  ⟨"openmm_state_destroy_", 809, ["OpenMM_State_destroy"]⟩,
  ⟨"OpenMM_State_getTime", 812, []⟩,
  ⟨"openmm_state_gettime_", 814, ["OpenMM_State_getTime"]⟩,
  ⟨"OpenMM_State_getPotentialEnergy", 817, []⟩,
  ⟨"openmm_state_getpotentialenergy_", 819, ["OpenMM_State_getPotentialEnergy"]⟩,
  ⟨"OpenMM_State_getKineticEnergy", 822, []⟩,
  ⟨"openmm_state_getkineticenergy_", 824, ["OpenMM_State_getKineticEnergy"]⟩,
  ⟨"OpenMM_State_getPositions", 827, []⟩,
  ⟨"openmm_state_getpositions_", 829, ["OpenMM_State_getPositions"]⟩,
  ⟨"OpenMM_State_getVelocities", 832, []⟩,
  ⟨"openmm_state_getvelocities_", 834, ["OpenMM_State_getVelocities"]⟩]

/-- The functions of the section `OpenMM_RuntimeObjects`. -/
def runtimeObjectsFns : List FnDef := [
  ⟨"OpenMM_RuntimeObjects_create", 841, []⟩,
  ⟨"openmm_runtimeobjects_create_", 848, ["OpenMM_RuntimeObjects_create"]⟩,
  ⟨"OpenMM_RuntimeObjects_clear", 851, ["OpenMM_Context_destroy", "OpenMM_Integrator_destroy", "OpenMM_System_destroy"]⟩,
  ⟨"openmm_runtimeobjects_clear_", 857, ["OpenMM_RuntimeObjects_clear"]⟩,
  ⟨"OpenMM_RuntimeObjects_destroy", 860, ["OpenMM_RuntimeObjects_clear"]⟩,
  ⟨"openmm_runtimeobjects_destroy_", 862, ["OpenMM_RuntimeObjects_destroy"]⟩,
  ⟨"OpenMM_RuntimeObjects_setSystem", 865, ["OpenMM_System_destroy"]⟩,
  ⟨"openmm_runtimeobjects_setsystem_", 867, ["OpenMM_RuntimeObjects_setSystem"]⟩,
  ⟨"OpenMM_RuntimeObjects_getSystem", 869, []⟩,
  ⟨"openmm_runtimeobjects_getsystem_", 871, ["OpenMM_RuntimeObjects_getSystem"]⟩,
  ⟨"OpenMM_RuntimeObjects_setIntegrator", 874, ["OpenMM_Integrator_destroy"]⟩,
  ⟨"openmm_runtimeobjects_setintegrator_", 876, ["OpenMM_RuntimeObjects_setIntegrator"]⟩,
  ⟨"OpenMM_RuntimeObjects_getIntegrator", 878, []⟩,
  ⟨"openmm_runtimeobjects_getintegrator_", 880, ["OpenMM_RuntimeObjects_getIntegrator"]⟩,
  ⟨"OpenMM_RuntimeObjects_setContext", 883, ["OpenMM_Context_destroy"]⟩,
  ⟨"openmm_runtimeobjects_setcontext_", 885, ["OpenMM_RuntimeObjects_setContext"]⟩,
  ⟨"OpenMM_RuntimeObjects_getContext", 887, []⟩,
  ⟨"openmm_runtimeobjects_getcontext_", 889, ["OpenMM_RuntimeObjects_getContext"]⟩]

/-- Every function defined inside the `extern "C"` block, in source order. -/
def exported : List FnDef :=
  vec3ArrayFns ++ bondArrayFns ++ stringFns ++ platformFns ++ systemFns ++
  nonbondedForceFns ++ gbsaobcForceFns ++ harmonicBondForceFns ++ harmonicAngleForceFns ++ periodicTorsionForceFns ++
  integratorFns ++ contextFns ++ stateFns ++ runtimeObjectsFns


/-- A gfortran form: a name without uppercase letters that ends in an underscore. -/
def isLowerForm (f : String) : Bool :=
  f.toList.all (fun c => !c.isUpper) && f.toList.getLast? == some '_'

/-- An ifort form: a name without lowercase letters. -/
def isUpperForm (f : String) : Bool :=
  f.toList.all (fun c => !c.isLower)

/-- A C function: a mixed-case name, neither of the two Fortran forms. -/
def isCFunction (f : String) : Bool :=
  !isLowerForm f && !isUpperForm f

/-- The sections of the file, as its banner comments delimit them, in source order. -/
def fileSections : List (List FnDef) :=
  [vec3ArrayFns, bondArrayFns, stringFns, platformFns, systemFns, nonbondedForceFns,
   gbsaobcForceFns, harmonicBondForceFns, harmonicAngleForceFns, periodicTorsionForceFns,
   integratorFns, contextFns, stateFns, runtimeObjectsFns]

/-- The C function `f` has a lowercase-underscore Fortran form of its own that calls it: a
lowercase-underscore function defined in the section of `f` whose body calls `f`.  A Fortran
function of another section that uses `f` as a helper is not a form of `f`. -/
def hasLowerForm (secs : List (List FnDef)) (f : String) : Bool :=
  secs.any fun sec =>
    sec.any (fun d => d.name == f) && sec.any fun g => isLowerForm g.name && g.calls.contains f

/-- The C function `f` has an uppercase Fortran form of its own that calls it: an uppercase
function defined in the section of `f` whose body calls `f`. -/
def hasUpperForm (secs : List (List FnDef)) (f : String) : Bool :=
  secs.any fun sec =>
    sec.any (fun d => d.name == f) && sec.any fun g => isUpperForm g.name && g.calls.contains f

/-- The sections that define uppercase Fortran forms. -/
def threeFormFns : List FnDef :=
  bondArrayFns ++ nonbondedForceFns ++ harmonicBondForceFns ++ harmonicAngleForceFns ++
    periodicTorsionForceFns

/-- The C functions that no Fortran form of their own calls. -/
def cOnlyFns : List String :=
  ["OpenMM_Vec3_scale", "OpenMM_String_create", "OpenMM_String_getAsC", "OpenMM_String_get",
   "OpenMM_String_set", "OpenMM_Context_getPlatformName"]

/-- The C functions whose lowercase-underscore Fortran form does the work itself. -/
def reimplementedFns : List String :=
  ["OpenMM_Vec3_scale", "OpenMM_String_create", "OpenMM_String_get", "OpenMM_String_set",
   "OpenMM_Context_getPlatformName"]

/-! ## The force objects, run against an abstract engine

The engine classes are not part of the file.  The body of a wrapper is a program
that makes engine calls and ends with what the wrapper gives back to its caller;
it is run against an arbitrary engine, a function answering every call made on
it, and the run records the calls in order. -/

/-- A value passed between a wrapper and the engine: an `int` (or an enumeration
value), a `double`, a `Vec3`, a vector of pairs, or a pointer to an engine object. -/
inductive Val (D : Type) where
  | int (i : Int)
  | real (d : D)
  | vec3 (v : Vec3 D)
  | pairs (b : IntPairs)
  | ptr (p : Nat)
deriving DecidableEq, Repr

/-- A call of a member of an engine class: the class, the member (a method name,
the class name for the constructor, `~` and the class name for the destructor),
the address of the object it is called on (`none` for `new`), and the values
passed, in order. -/
structure EngineCall (D : Type) where
  cls : String
  member : String
  self : Option Nat
  args : List (Val D)
deriving DecidableEq, Repr

/-- What a call gives back: the value returned (`none` for `void`) and the values
stored through the reference or pointer parameters, in parameter order.  It is
used both for the answer of the engine to a call and for the result of a wrapper. -/
structure Reply (D : Type) where
  value : Option (Val D)
  outs : List (Val D)

/-- An engine: any function from calls to answers. -/
abbrev Engine (D : Type) := EngineCall D → Reply D

/-- The body of a wrapper: it returns, or it makes an engine call and goes on
with the answer. -/
inductive EngineProg (D : Type) (α : Type) where
  | ret (a : α) : EngineProg D α
  | invoke (call : EngineCall D) (next : Reply D → EngineProg D α) : EngineProg D α

/-- The engine calls made by a program, in order, and its result. -/
def EngineProg.exec {D α : Type} (engine : Engine D) : EngineProg D α → List (EngineCall D) × α
  | .ret a => ([], a)
  | .invoke call next =>
    let rest := (next (engine call)).exec engine
    (call :: rest.1, rest.2)

/-- The outcome of a wrapper: the engine calls made, in order; the value
returned (`none` for a `void` function); the values left in the out-parameters,
in parameter order. -/
structure Outcome (D : Type) where
  calls : List (EngineCall D)
  value : Option (Val D)
  outs : List (Val D)

/-- The outcome of running the body of a wrapper against an engine. -/
def run {D : Type} (engine : Engine D) (body : EngineProg D (Reply D)) : Outcome D :=
  ⟨(body.exec engine).1, (body.exec engine).2.value, (body.exec engine).2.outs⟩

/-! ### `OpenMM::NonbondedForce` -/

/-- Function `OpenMM_NonbondedForce_create`: `return (OpenMM_NonbondedForce*)new NonbondedForce();`. -/
def OpenMM_NonbondedForce_create {D : Type} : EngineProg D (Reply D) :=
  .invoke ⟨"NonbondedForce", "NonbondedForce", none, []⟩ fun r =>
  .ret ⟨r.value, []⟩

/-- Function `OpenMM_NonbondedForce_destroy`: `delete (NonbondedForce*)doomed;` (deleting a null pointer does nothing). -/
def OpenMM_NonbondedForce_destroy {D : Type} (doomed : Nat) : EngineProg D (Reply D) :=
  if doomed = 0 then .ret ⟨none, []⟩
  else
    .invoke ⟨"NonbondedForce", "~NonbondedForce", some doomed, []⟩ fun _ =>
    .ret ⟨none, []⟩

/-- Function `OpenMM_NonbondedForce_setNonbondedMethod`:
`((NonbondedForce*)nbf)->setNonbondedMethod(NonbondedForce::NonbondedMethod(method));` -/
def OpenMM_NonbondedForce_setNonbondedMethod {D : Type} (nbf : Nat) (method : Int) :
    EngineProg D (Reply D) :=
  .invoke ⟨"NonbondedForce", "setNonbondedMethod", some nbf, [.int method]⟩ fun _ =>
  .ret ⟨none, []⟩

/-- Function `OpenMM_NonbondedForce_getNonbondedMethod`:
`return OpenMM_NonbondedForce_NonbondedMethod(((const NonbondedForce*)nbf)->getNonbondedMethod());` -/
def OpenMM_NonbondedForce_getNonbondedMethod {D : Type} (nbf : Nat) :
    EngineProg D (Reply D) :=
  .invoke ⟨"NonbondedForce", "getNonbondedMethod", some nbf, []⟩ fun r =>
  .ret ⟨r.value, []⟩

/-- Function `OpenMM_NonbondedForce_setCutoffDistance`:
`((NonbondedForce*)nbf)->setCutoffDistance(d);` -/
def OpenMM_NonbondedForce_setCutoffDistance {D : Type} (nbf : Nat) (d : D) :
    EngineProg D (Reply D) :=
  .invoke ⟨"NonbondedForce", "setCutoffDistance", some nbf, [.real d]⟩ fun _ =>
  .ret ⟨none, []⟩

/-- Function `OpenMM_NonbondedForce_getCutoffDistance`:
`return ((NonbondedForce*)nbf)->getCutoffDistance();` -/
def OpenMM_NonbondedForce_getCutoffDistance {D : Type} (nbf : Nat) :
    EngineProg D (Reply D) :=
  .invoke ⟨"NonbondedForce", "getCutoffDistance", some nbf, []⟩ fun r =>
  .ret ⟨r.value, []⟩

/-- Function `OpenMM_NonbondedForce_setPeriodicBoxVectors`:
`((NonbondedForce*)nbf)->setPeriodicBoxVectors(*(const Vec3*)a, *(const Vec3*)b, *(const Vec3*)c);` -/
def OpenMM_NonbondedForce_setPeriodicBoxVectors {D : Type} (nbf : Nat) (a b c : OpenMM_Vec3 D) :
    EngineProg D (Reply D) :=
  .invoke ⟨"NonbondedForce", "setPeriodicBoxVectors", some nbf,
      [.vec3 (asVec3 a), .vec3 (asVec3 b), .vec3 (asVec3 c)]⟩ fun _ =>
  .ret ⟨none, []⟩

/-- Function `OpenMM_NonbondedForce_getPeriodicBoxVectors`:
`((const NonbondedForce*)nbf)->getPeriodicBoxVectors(*(Vec3*)a, *(Vec3*)b, *(Vec3*)c);` -/
def OpenMM_NonbondedForce_getPeriodicBoxVectors {D : Type} (nbf : Nat) :
    EngineProg D (Reply D) :=
  .invoke ⟨"NonbondedForce", "getPeriodicBoxVectors", some nbf, []⟩ fun r =>
  .ret ⟨none, r.outs⟩

/-- Function `OpenMM_NonbondedForce_addParticle`:
`return ((NonbondedForce*)nbf)->addParticle(charge, sigmaInNm, vdwEnergyInKJ);` -/
def OpenMM_NonbondedForce_addParticle {D : Type} (nbf : Nat) (charge sigmaInNm vdwEnergyInKJ : D) :
    EngineProg D (Reply D) :=
  .invoke ⟨"NonbondedForce", "addParticle", some nbf,
      [.real charge, .real sigmaInNm, .real vdwEnergyInKJ]⟩ fun r =>
  .ret ⟨r.value, []⟩

/-- Function `OpenMM_NonbondedForce_setParticleParameters`:
`((NonbondedForce*)nbf)->setParticleParameters(index, charge, sigmaInNm, vdwEnergyInKJ);` -/
def OpenMM_NonbondedForce_setParticleParameters {D : Type} (nbf : Nat) (index : Int) (charge sigmaInNm vdwEnergyInKJ : D) :
    EngineProg D (Reply D) :=
  .invoke ⟨"NonbondedForce", "setParticleParameters", some nbf,
      [.int index, .real charge, .real sigmaInNm, .real vdwEnergyInKJ]⟩ fun _ =>
  .ret ⟨none, []⟩

/-- Function `OpenMM_NonbondedForce_getParticleParameters`:
`((const NonbondedForce*)nbf)->getParticleParameters(index, *charge, *sigmaInNm, *vdwEnergyInKJ);` -/
def OpenMM_NonbondedForce_getParticleParameters {D : Type} (nbf : Nat) (index : Int) :
    EngineProg D (Reply D) :=
  .invoke ⟨"NonbondedForce", "getParticleParameters", some nbf, [.int index]⟩ fun r =>
  .ret ⟨none, r.outs⟩

/-- Function `OpenMM_NonbondedForce_getNumParticles`:
`return ((const NonbondedForce*)nbf)->getNumParticles();` -/
def OpenMM_NonbondedForce_getNumParticles {D : Type} (nbf : Nat) :
    EngineProg D (Reply D) :=
  .invoke ⟨"NonbondedForce", "getNumParticles", some nbf, []⟩ fun r =>
  .ret ⟨r.value, []⟩

/-- Function `OpenMM_NonbondedForce_getNumExceptions`:
`return ((const NonbondedForce*)nbf)->getNumExceptions();` -/
def OpenMM_NonbondedForce_getNumExceptions {D : Type} (nbf : Nat) :
    EngineProg D (Reply D) :=
  .invoke ⟨"NonbondedForce", "getNumExceptions", some nbf, []⟩ fun r =>
  .ret ⟨r.value, []⟩

/-- Function `OpenMM_NonbondedForce_addException`:
`return ((NonbondedForce*)nbf)->addException(p1, p2, chargeProd, sigmaInNm, vdwEnergyInKJ);` -/
def OpenMM_NonbondedForce_addException {D : Type} (nbf : Nat) (p1 p2 : Int) (chargeProd sigmaInNm vdwEnergyInKJ : D) :
    EngineProg D (Reply D) :=
  .invoke ⟨"NonbondedForce", "addException", some nbf,
      [.int p1, .int p2, .real chargeProd, .real sigmaInNm, .real vdwEnergyInKJ]⟩ fun r =>
  .ret ⟨r.value, []⟩

/-- Function `OpenMM_NonbondedForce_setExceptionParameters`:
`return ((NonbondedForce*)nbf)->setExceptionParameters(index, p1, p2, chargeProd, sigmaInNm, vdwEnergyInKJ);` -/
def OpenMM_NonbondedForce_setExceptionParameters {D : Type} (nbf : Nat) (index p1 p2 : Int) (chargeProd sigmaInNm vdwEnergyInKJ : D) :
    EngineProg D (Reply D) :=
  .invoke ⟨"NonbondedForce", "setExceptionParameters", some nbf,
      [.int index, .int p1, .int p2, .real chargeProd, .real sigmaInNm, .real vdwEnergyInKJ]⟩ fun _ =>
  .ret ⟨none, []⟩

/-- Function `OpenMM_NonbondedForce_getExceptionParameters`:
`return ((const NonbondedForce*)nbf)->getExceptionParameters(index, *p1, *p2, *chargeProd, *sigmaInNm, *vdwEnergyInKJ);` -/
def OpenMM_NonbondedForce_getExceptionParameters {D : Type} (nbf : Nat) (index : Int) :
    EngineProg D (Reply D) :=
  .invoke ⟨"NonbondedForce", "getExceptionParameters", some nbf, [.int index]⟩ fun r =>
  .ret ⟨none, r.outs⟩

/-- Function `OpenMM_NonbondedForces_createExceptionsFromBonds`:
`typedef std::vector< std::pair<int,int> > IntPairs; const IntPairs& bonds = *(const IntPairs*)ba; ((NonbondedForce*)nbf)->createExceptionsFromBonds(bonds, coulomb14Scale, lj14Scale);` -/
def OpenMM_NonbondedForces_createExceptionsFromBonds {D : Type} (nbf : Nat) (ba : IntPairs) (coulomb14Scale lj14Scale : D) :
    EngineProg D (Reply D) :=
  .invoke ⟨"NonbondedForce", "createExceptionsFromBonds", some nbf,
      [.pairs ba, .real coulomb14Scale, .real lj14Scale]⟩ fun _ =>
  .ret ⟨none, []⟩

/-! ### `OpenMM::GBSAOBCForce` -/

/-- Function `OpenMM_GBSAOBCForce_create`: `return (OpenMM_GBSAOBCForce*)new GBSAOBCForce();`. -/
def OpenMM_GBSAOBCForce_create {D : Type} : EngineProg D (Reply D) :=
  .invoke ⟨"GBSAOBCForce", "GBSAOBCForce", none, []⟩ fun r =>
  .ret ⟨r.value, []⟩

/-- Function `OpenMM_GBSAOBCForce_destroy`: `delete (GBSAOBCForce*)doomed;` (deleting a null pointer does nothing). -/
def OpenMM_GBSAOBCForce_destroy {D : Type} (doomed : Nat) : EngineProg D (Reply D) :=
  if doomed = 0 then .ret ⟨none, []⟩
  else
    .invoke ⟨"GBSAOBCForce", "~GBSAOBCForce", some doomed, []⟩ fun _ =>
    .ret ⟨none, []⟩

/-- Function `OpenMM_GBSAOBCForce_setSolventDielectric`:
`((GBSAOBCForce*)gbsa)->setSolventDielectric(d);` -/
def OpenMM_GBSAOBCForce_setSolventDielectric {D : Type} (gbsa : Nat) (d : D) :
    EngineProg D (Reply D) :=
  .invoke ⟨"GBSAOBCForce", "setSolventDielectric", some gbsa, [.real d]⟩ fun _ =>
  .ret ⟨none, []⟩

/-- Function `OpenMM_GBSAOBCForce_setSoluteDielectric`:
`((GBSAOBCForce*)gbsa)->setSoluteDielectric(d);` -/
def OpenMM_GBSAOBCForce_setSoluteDielectric {D : Type} (gbsa : Nat) (d : D) :
    EngineProg D (Reply D) :=
  .invoke ⟨"GBSAOBCForce", "setSoluteDielectric", some gbsa, [.real d]⟩ fun _ =>
  .ret ⟨none, []⟩

/-- Function `OpenMM_GBSAOBCForce_addParticle`:
`((GBSAOBCForce*)gbsa)->addParticle(charge, radiusInNm, scalingFactor);` -/
def OpenMM_GBSAOBCForce_addParticle {D : Type} (gbsa : Nat) (charge radiusInNm scalingFactor : D) :
    EngineProg D (Reply D) :=
  .invoke ⟨"GBSAOBCForce", "addParticle", some gbsa,
      [.real charge, .real radiusInNm, .real scalingFactor]⟩ fun _ =>
  .ret ⟨none, []⟩

/-! ### `OpenMM::HarmonicBondForce` -/

/-- Function `OpenMM_HarmonicBondForce_create`: `return (OpenMM_HarmonicBondForce*)new HarmonicBondForce();`. -/
def OpenMM_HarmonicBondForce_create {D : Type} : EngineProg D (Reply D) :=
  .invoke ⟨"HarmonicBondForce", "HarmonicBondForce", none, []⟩ fun r =>
  .ret ⟨r.value, []⟩

/-- Function `OpenMM_HarmonicBondForce_destroy`: `delete (HarmonicBondForce*)doomed;` (deleting a null pointer does nothing). -/
def OpenMM_HarmonicBondForce_destroy {D : Type} (doomed : Nat) : EngineProg D (Reply D) :=
  if doomed = 0 then .ret ⟨none, []⟩
  else
    .invoke ⟨"HarmonicBondForce", "~HarmonicBondForce", some doomed, []⟩ fun _ =>
    .ret ⟨none, []⟩

/-- Function `OpenMM_HarmonicBondForce_getNumBonds`:
`return ((const HarmonicBondForce*)hbf)->getNumBonds();` -/
def OpenMM_HarmonicBondForce_getNumBonds {D : Type} (hbf : Nat) :
    EngineProg D (Reply D) :=
  .invoke ⟨"HarmonicBondForce", "getNumBonds", some hbf, []⟩ fun r =>
  .ret ⟨r.value, []⟩

/-- Function `OpenMM_HarmonicBondForce_addBond`:
`return ((HarmonicBondForce*)hbf)->addBond(p1,p2,len,k);` -/
def OpenMM_HarmonicBondForce_addBond {D : Type} (hbf : Nat) (p1 p2 : Int) (len k : D) :
    EngineProg D (Reply D) :=
  .invoke ⟨"HarmonicBondForce", "addBond", some hbf,
      [.int p1, .int p2, .real len, .real k]⟩ fun r =>
  .ret ⟨r.value, []⟩

/-- Function `OpenMM_HarmonicBondForce_setBondParameters`:
`((HarmonicBondForce*)hbf)->setBondParameters(ix,p1,p2,len,k);` -/
def OpenMM_HarmonicBondForce_setBondParameters {D : Type} (hbf : Nat) (ix p1 p2 : Int) (len k : D) :
    EngineProg D (Reply D) :=
  .invoke ⟨"HarmonicBondForce", "setBondParameters", some hbf,
      [.int ix, .int p1, .int p2, .real len, .real k]⟩ fun _ =>
  .ret ⟨none, []⟩

/-- Function `OpenMM_HarmonicBondForce_getBondParameters`:
`((const HarmonicBondForce*)hbf)->getBondParameters(ix,*p1,*p2,*len,*k);` -/
def OpenMM_HarmonicBondForce_getBondParameters {D : Type} (hbf : Nat) (ix : Int) :
    EngineProg D (Reply D) :=
  .invoke ⟨"HarmonicBondForce", "getBondParameters", some hbf, [.int ix]⟩ fun r =>
  .ret ⟨none, r.outs⟩

/-! ### `OpenMM::HarmonicAngleForce` -/

/-- Function `OpenMM_HarmonicAngleForce_create`: `return (OpenMM_HarmonicAngleForce*)new HarmonicAngleForce();`. -/
def OpenMM_HarmonicAngleForce_create {D : Type} : EngineProg D (Reply D) :=
  .invoke ⟨"HarmonicAngleForce", "HarmonicAngleForce", none, []⟩ fun r =>
  .ret ⟨r.value, []⟩

/-- Function `OpenMM_HarmonicAngleForce_destroy`: `delete (HarmonicAngleForce*)doomed;` (deleting a null pointer does nothing). -/
def OpenMM_HarmonicAngleForce_destroy {D : Type} (doomed : Nat) : EngineProg D (Reply D) :=
  if doomed = 0 then .ret ⟨none, []⟩
  else
    .invoke ⟨"HarmonicAngleForce", "~HarmonicAngleForce", some doomed, []⟩ fun _ =>
    .ret ⟨none, []⟩

/-- Function `OpenMM_HarmonicAngleForce_getNumAngles`:
`return ((const HarmonicAngleForce*)haf)->getNumAngles();` -/
def OpenMM_HarmonicAngleForce_getNumAngles {D : Type} (haf : Nat) :
    EngineProg D (Reply D) :=
  .invoke ⟨"HarmonicAngleForce", "getNumAngles", some haf, []⟩ fun r =>
  .ret ⟨r.value, []⟩

/-- Function `OpenMM_HarmonicAngleForce_addAngle`:
`return ((HarmonicAngleForce*)haf)->addAngle(p1,p2,p3,angle,k);` -/
def OpenMM_HarmonicAngleForce_addAngle {D : Type} (haf : Nat) (p1 p2 p3 : Int) (angle k : D) :
    EngineProg D (Reply D) :=
  .invoke ⟨"HarmonicAngleForce", "addAngle", some haf,
      [.int p1, .int p2, .int p3, .real angle, .real k]⟩ fun r =>
  .ret ⟨r.value, []⟩

/-- Function `OpenMM_HarmonicAngleForce_setAngleParameters`:
`((HarmonicAngleForce*)haf)->setAngleParameters(ix,p1,p2,p3,angle,k);` -/
def OpenMM_HarmonicAngleForce_setAngleParameters {D : Type} (haf : Nat) (ix p1 p2 p3 : Int) (angle k : D) :
    EngineProg D (Reply D) :=
  .invoke ⟨"HarmonicAngleForce", "setAngleParameters", some haf,
      [.int ix, .int p1, .int p2, .int p3, .real angle, .real k]⟩ fun _ =>
  .ret ⟨none, []⟩

/-- Function `OpenMM_HarmonicAngleForce_getAngleParameters`:
`((const HarmonicAngleForce*)haf)->getAngleParameters(ix,*p1,*p2,*p3,*angle,*k);` -/
def OpenMM_HarmonicAngleForce_getAngleParameters {D : Type} (haf : Nat) (ix : Int) :
    EngineProg D (Reply D) :=
  .invoke ⟨"HarmonicAngleForce", "getAngleParameters", some haf, [.int ix]⟩ fun r =>
  .ret ⟨none, r.outs⟩

/-! ### `OpenMM::PeriodicTorsionForce` -/

/-- Function `OpenMM_PeriodicTorsionForce_create`: `return (OpenMM_PeriodicTorsionForce*)new PeriodicTorsionForce();`. -/
def OpenMM_PeriodicTorsionForce_create {D : Type} : EngineProg D (Reply D) :=
  .invoke ⟨"PeriodicTorsionForce", "PeriodicTorsionForce", none, []⟩ fun r =>
  .ret ⟨r.value, []⟩

/-- Function `OpenMM_PeriodicTorsionForce_destroy`: `delete (PeriodicTorsionForce*)doomed;` (deleting a null pointer does nothing). -/
def OpenMM_PeriodicTorsionForce_destroy {D : Type} (doomed : Nat) : EngineProg D (Reply D) :=
  if doomed = 0 then .ret ⟨none, []⟩
  else
    .invoke ⟨"PeriodicTorsionForce", "~PeriodicTorsionForce", some doomed, []⟩ fun _ =>
    .ret ⟨none, []⟩

/-- Function `OpenMM_PeriodicTorsionForce_getNumTorsions`:
`return ((const PeriodicTorsionForce*)haf)->getNumTorsions();` -/
def OpenMM_PeriodicTorsionForce_getNumTorsions {D : Type} (haf : Nat) :
    EngineProg D (Reply D) :=
  .invoke ⟨"PeriodicTorsionForce", "getNumTorsions", some haf, []⟩ fun r =>
  .ret ⟨r.value, []⟩

/-- Function `OpenMM_PeriodicTorsionForce_addTorsion`:
`return ((PeriodicTorsionForce*)haf)->addTorsion(p1,p2,p3,p4,periodicity,phase,k);` -/
def OpenMM_PeriodicTorsionForce_addTorsion {D : Type} (haf : Nat) (p1 p2 p3 p4 periodicity : Int) (phase k : D) :
    EngineProg D (Reply D) :=
  .invoke ⟨"PeriodicTorsionForce", "addTorsion", some haf,
      [.int p1, .int p2, .int p3, .int p4, .int periodicity, .real phase, .real k]⟩ fun r =>
  .ret ⟨r.value, []⟩

/-- Function `OpenMM_PeriodicTorsionForce_setTorsionParameters`:
`((PeriodicTorsionForce*)haf)->setTorsionParameters(ix,p1,p2,p3,p4,periodicity,phase,k);` -/
def OpenMM_PeriodicTorsionForce_setTorsionParameters {D : Type} (haf : Nat) (ix p1 p2 p3 p4 periodicity : Int) (phase k : D) :
    EngineProg D (Reply D) :=
  .invoke ⟨"PeriodicTorsionForce", "setTorsionParameters", some haf,
      [.int ix, .int p1, .int p2, .int p3, .int p4, .int periodicity, .real phase, .real k]⟩ fun _ =>
  .ret ⟨none, []⟩

/-- Function `OpenMM_PeriodicTorsionForce_getTorsionParameters`:
`((const PeriodicTorsionForce*)haf)->getTorsionParameters(ix,*p1,*p2,*p3,*p4,*periodicity,*phase,*k);` -/
def OpenMM_PeriodicTorsionForce_getTorsionParameters {D : Type} (haf : Nat) (ix : Int) :
    EngineProg D (Reply D) :=
  .invoke ⟨"PeriodicTorsionForce", "getTorsionParameters", some haf, [.int ix]⟩ fun r =>
  .ret ⟨none, r.outs⟩

/-- One-to-one forwarding of a C function whose handle `self` points to an object of the
engine class `cls`, with input values `args`: the outcome `o` has exactly one engine call, of
the method `method` of the class `cls`, on the object behind `self`, with the values `args` in
order; the function returns the value of the engine when it `returns` one and leaves the
outputs of the engine in its out-parameters when it `writes` some. -/
def Forwards {D : Type} (engine : Engine D) (cls method : String) (self : Nat)
    (args : List (Val D)) (returns writes : Bool) (o : Outcome D) : Prop :=
  ∃ call : EngineCall D, o.calls = [call] ∧ call.cls = cls ∧ call.member = method ∧
    call.self = some self ∧ call.args = args ∧
    o.value = (if returns then (engine call).value else none) ∧
    o.outs = (if writes then (engine call).outs else [])

/-- An engine for examples: a constructor returns the pointer `64`; every call on an
object returns the `int` `7` and stores `1, 2` through its reference parameters. -/
def sampleEngine : Engine Int :=
  fun call => if call.self.isNone then ⟨some (.ptr 64), []⟩ else ⟨some (.int 7), [.int 1, .int 2]⟩

/-! ## The Fortran naming conventions -/

/-- The name gfortran gives to a C function: all-lowercase, with one underscore appended. -/
def gfortranName (c : String) : String :=
  String.mk (c.toList.map Char.toLower ++ ['_'])

/-- The name ifort gives to a C function: all-uppercase, with no underscore appended. -/
def ifortName (c : String) : String :=
  String.mk (c.toList.map Char.toUpper)

/-- The lowercase-underscore Fortran forms of the table that call the C function `f`. -/
def lowerFormsOf (tbl : List FnDef) (f : String) : List String :=
  (tbl.filter fun g => isLowerForm g.name && g.calls.contains f).map (·.name)

/-- The uppercase Fortran forms of the table that call the C function `f`. -/
def upperFormsOf (tbl : List FnDef) (f : String) : List String :=
  (tbl.filter fun g => isUpperForm g.name && g.calls.contains f).map (·.name)

/-! ## Lemmas on element access -/

theorem vecRead_natCast {α : Type} (v : List α) (k : Nat) : vecRead v (k : Int) = v[k]? := by
  simp [vecRead]

theorem vecRead_neg {α : Type} (v : List α) (i : Int) (h : i < 0) : vecRead v i = none := by
  simp [vecRead, not_le.mpr h]

theorem vecWrite_natCast {α : Type} (v : List α) (k : Nat) (x : α) (h : k < v.length) :
    vecWrite v (k : Int) x = some (v.set k x) := by
  simp [vecWrite, h]

theorem fromVec3_toVec3 {D : Type} (v : OpenMM_Vec3 D) : fromVec3 (toVec3 v) = v := by
  cases v; rfl

theorem bondGet_natCast (a : IntPairs) (k : Nat) : OpenMM_BondArray_get a (k : Int) = a[k]? := by
  unfold OpenMM_BondArray_get
  rw [vecRead_natCast]
  cases a[k]? <;> simp

theorem bondGet_neg (a : IntPairs) (i : Int) (h : i < 0) : OpenMM_BondArray_get a i = none := by
  unfold OpenMM_BondArray_get
  rw [vecRead_neg a i h]
  rfl

theorem int_cases_index (i : Int) : i < 0 ∨ ∃ k : Nat, i = (k : Int) := by
  rcases lt_or_le i 0 with h | h
  · exact Or.inl h
  · exact Or.inr ⟨i.toNat, (Int.toNat_of_nonneg h).symm⟩

/-! ## C1: one-relative Fortran indices -/

/-- C1. For every `Vec3` array `a` and bond array `b`, and every one-relative index `i1` with
`1 <= i1 <= size`, the element `i1 - 1` lies inside the array, and each Fortran form
(`openmm_vec3array_get_`, `getscaled_`, `set_`, `setscaled_`, `openmm_bondarray_get_`, `set_`,
`OPENMM_BONDARRAY_GET`, `SET`) reads or writes exactly that element, as the C form does when
called with `i0 = i1 - 1`. -/
theorem fortran_index_one_relative {D : Type} [Mul D] (a : List (Vec3 D)) (b : IntPairs)
    (i1 j1 : Int) (s : D) (v3 : OpenMM_Vec3 D) (p1 p2 : Int)
    (hi : 1 ≤ i1 ∧ i1 ≤ OpenMM_Vec3Array_size a) (hj : 1 ≤ j1 ∧ j1 ≤ OpenMM_BondArray_size b) :
    (0 ≤ i1 - 1 ∧ i1 - 1 < OpenMM_Vec3Array_size a ∧
      ∃ e : Vec3 D, a[(i1 - 1).toNat]? = some e ∧
        openmm_vec3array_get_ a i1 = some (fromVec3 e) ∧
        OpenMM_Vec3Array_get a (i1 - 1) = some (fromVec3 e) ∧
        openmm_vec3array_getscaled_ a i1 s = some (scaleFromVec3 e s) ∧
        OpenMM_Vec3Array_getScaled a (i1 - 1) s = some (scaleFromVec3 e s) ∧
        openmm_vec3array_set_ a i1 v3 = some (a.set (i1 - 1).toNat (toVec3 v3)) ∧
        OpenMM_Vec3Array_set a (i1 - 1) v3 = some (a.set (i1 - 1).toNat (toVec3 v3)) ∧
        openmm_vec3array_setscaled_ a i1 v3 s = some (a.set (i1 - 1).toNat (scaleToVec3 v3 s)) ∧
        OpenMM_Vec3Array_setScaled a (i1 - 1) v3 s
          = some (a.set (i1 - 1).toNat (scaleToVec3 v3 s))) ∧
    (0 ≤ j1 - 1 ∧ j1 - 1 < OpenMM_BondArray_size b ∧
      ∃ e : Int × Int, b[(j1 - 1).toNat]? = some e ∧
        openmm_bondarray_get_ b j1 = some e ∧
        OPENMM_BONDARRAY_GET b j1 = some e ∧
        OpenMM_BondArray_get b (j1 - 1) = some e ∧
        openmm_bondarray_set_ b j1 p1 p2 = some (b.set (j1 - 1).toNat (p1, p2)) ∧
        OPENMM_BONDARRAY_SET b j1 p1 p2 = some (b.set (j1 - 1).toNat (p1, p2)) ∧
        OpenMM_BondArray_set b (j1 - 1) p1 p2 = some (b.set (j1 - 1).toNat (p1, p2))) := by
  obtain ⟨hi1, hi2⟩ := hi
  obtain ⟨hj1, hj2⟩ := hj
  unfold OpenMM_Vec3Array_size at hi2 ⊢
  unfold OpenMM_BondArray_size at hj2 ⊢
  obtain ⟨k, hk⟩ : ∃ k : Nat, i1 - 1 = (k : Int) :=
    ⟨(i1 - 1).toNat, (Int.toNat_of_nonneg (by omega)).symm⟩
  obtain ⟨m, hm⟩ : ∃ m : Nat, j1 - 1 = (m : Int) :=
    ⟨(j1 - 1).toNat, (Int.toNat_of_nonneg (by omega)).symm⟩
  have hka : k < a.length := by omega
  have hmb : m < b.length := by omega
  refine ⟨⟨by omega, by omega, a.get ⟨k, hka⟩, ?_⟩, ⟨by omega, by omega, b.get ⟨m, hmb⟩, ?_⟩⟩
  · simp only [openmm_vec3array_get_, openmm_vec3array_getscaled_, openmm_vec3array_set_,
      openmm_vec3array_setscaled_, OpenMM_Vec3Array_get, OpenMM_Vec3Array_getScaled,
      OpenMM_Vec3Array_set, OpenMM_Vec3Array_setScaled, hk, Int.toNat_ofNat,
      vecRead_natCast, vecWrite_natCast _ _ _ hka, List.getElem?_eq_getElem hka]
    simp
  · simp only [openmm_bondarray_get_, OPENMM_BONDARRAY_GET, openmm_bondarray_set_,
      OPENMM_BONDARRAY_SET, OpenMM_BondArray_set, hm, Int.toNat_ofNat, bondGet_natCast,
      vecWrite_natCast _ _ _ hmb, List.getElem?_eq_getElem hmb]
    simp

/-- C1 at the three-element arrays, with the Fortran indices `2` and `3`. -/
theorem fortran_index_one_relative_witness :
    openmm_vec3array_get_ [(⟨1, 2, 3⟩ : Vec3 Int), ⟨4, 5, 6⟩, ⟨7, 8, 9⟩] 2 = some ⟨4, 5, 6⟩ ∧
    OPENMM_BONDARRAY_GET [(1, 2), (3, 4), (5, 6)] 3 = some (5, 6) := by
  obtain ⟨⟨_, _, e, he, h1, _⟩, ⟨_, _, f, hf, _, h2, _⟩⟩ :=
    fortran_index_one_relative [(⟨1, 2, 3⟩ : Vec3 Int), ⟨4, 5, 6⟩, ⟨7, 8, 9⟩]
      [(1, 2), (3, 4), (5, 6)] 2 3 (1 : Int) ⟨0, 0, 0⟩ 0 0 (by decide) (by decide)
  have he' : e = ⟨4, 5, 6⟩ := by
    have : (some (⟨4, 5, 6⟩ : Vec3 Int)) = some e := he
    exact (Option.some.inj this).symm
  have hf' : f = (5, 6) := by
    have : (some ((5 : Int), (6 : Int))) = some f := hf
    exact (Option.some.inj this).symm
  subst he' hf'
  exact ⟨h1, h2⟩

/-! ## Lemmas on the copy-out loops -/

theorem stripLoop_le (s : List Char) (n : Nat) : stripLoop s n ≤ n := by
  induction n with
  | zero => simp [stripLoop]
  | succ n ih =>
    unfold stripLoop
    split
    · exact Nat.le_succ_of_le ih
    · exact Nat.le_refl _

theorem stripLoop_last (s : List Char) (n : Nat) :
    stripLoop s n = 0 ∨ s.getD (stripLoop s n - 1) NUL ≠ ' ' := by
  induction n with
  | zero => exact Or.inl rfl
  | succ n ih =>
    unfold stripLoop
    split
    · exact ih
    · next h => exact Or.inr (by simpa using h)

theorem stripLoop_blank (s : List Char) (n j : Nat) (h1 : stripLoop s n ≤ j) (h2 : j < n) :
    s.getD j NUL = ' ' := by
  induction n with
  | zero => omega
  | succ n ih =>
    unfold stripLoop at h1
    split at h1
    · next h =>
      by_cases hj : j = n
      · rw [hj]; exact h
      · exact ih h1 (by omega)
    · omega

theorem getD_of_getElem? (s : List Char) (j : Nat) (c : Char) (h : s[j]? = some c) :
    s.getD j NUL = c := by
  rw [List.getD_eq_getElem?_getD, h]
  rfl

theorem getElem?_of_getD (s : List Char) (j : Nat) (h : j < s.length) :
    s[j]? = some (s.getD j NUL) := by
  rw [List.getD_eq_getElem?_getD, List.getElem?_eq_getElem h]
  rfl

/-- The stripping loop started at the end of `s` stops at the largest `k` that is `0` or
follows a character other than the blank. -/
theorem stripLoop_largest (s : List Char) :
    stripLoop s s.length ≤ s.length ∧
    (stripLoop s s.length = 0 ∨ s[stripLoop s s.length - 1]? ≠ some ' ') ∧
    (∀ k2 : Nat, k2 ≤ s.length → (k2 = 0 ∨ s[k2 - 1]? ≠ some ' ') →
      k2 ≤ stripLoop s s.length) := by
  refine ⟨stripLoop_le s _, ?_, ?_⟩
  · rcases stripLoop_last s s.length with h | h
    · exact Or.inl h
    · exact Or.inr (fun hc => h (getD_of_getElem? s _ _ hc))
  · intro k2 hk2 hlast
    by_contra hlt
    have hpos : k2 ≠ 0 := by omega
    rcases hlast with h | h
    · exact hpos h
    · have hb := stripLoop_blank s s.length (k2 - 1) (by omega) (by omega)
      have := getElem?_of_getD s (k2 - 1) (by omega)
      rw [hb] at this
      exact h this

theorem getLast?_take_of_le (s : List Char) (k : Nat) (hk : k ≤ s.length) (hpos : k ≠ 0) :
    (s.take k).getLast? = s[k - 1]? := by
  rw [List.getLast?_eq_getElem?, List.length_take, Nat.min_eq_left hk,
    List.getElem?_take_of_lt (by omega)]

/-- C5. For every `len >= 0` and every array `in` holding (at least) `len` characters,
`openmm_string_set_` returns, and the string it leaves is `in[0..k)` where `k` is the largest
index `<= len` with `k = 0` or `in[k-1] != ' '`; its length is at most `len` and its last
character, if any, is not a blank. -/
theorem fortran_string_set_strips_trailing_blanks (inp : List Char) (len : Int)
    (h0 : 0 ≤ len) (h1 : len ≤ (inp.length : Int)) :
    ∃ k : Nat, openmm_string_set_ inp len = some (inp.take k) ∧ (k : Int) ≤ len ∧
      (k = 0 ∨ inp[k - 1]? ≠ some ' ') ∧
      (∀ k2 : Nat, (k2 : Int) ≤ len → (k2 = 0 ∨ inp[k2 - 1]? ≠ some ' ') → k2 ≤ k) ∧
      (((inp.take k).length : Nat) : Int) ≤ len ∧
      (inp.take k).getLast? ≠ some ' ' := by
  obtain ⟨n, rfl⟩ : ∃ n : Nat, len = (n : Int) := ⟨len.toNat, (Int.toNat_of_nonneg h0).symm⟩
  have hn : n ≤ inp.length := by omega
  have hsl : (inp.take n).length = n := by rw [List.length_take, Nat.min_eq_left hn]
  obtain ⟨hle, hlast, hmax⟩ := stripLoop_largest (inp.take n)
  rw [hsl] at hle hlast hmax
  have hget : ∀ j : Nat, j < n → (inp.take n)[j]? = inp[j]? :=
    fun j hj => List.getElem?_take_of_lt hj
  have hlast2 : stripLoop (inp.take n) n = 0 ∨ inp[stripLoop (inp.take n) n - 1]? ≠ some ' ' := by
    rcases hlast with h | h
    · exact Or.inl h
    · by_cases hz : stripLoop (inp.take n) n = 0
      · exact Or.inl hz
      · right; rw [← hget _ (by omega)]; exact h
  refine ⟨stripLoop (inp.take n) n, ?_, by omega, hlast2, ?_, ?_, ?_⟩
  · have hcond : 0 ≤ (n : Int) ∧ (n : Int) ≤ (inp.length : Int) := ⟨h0, h1⟩
    simp only [openmm_string_set_, hcond, and_self, if_true, Int.toNat_ofNat, List.take_take,
      Nat.min_eq_left hle]
  · intro k2 hk2 hl
    apply hmax k2 (by omega)
    rcases hl with h | h
    · exact Or.inl h
    · by_cases hz : k2 = 0
      · exact Or.inl hz
      · right; rw [hget _ (by omega)]; exact h
  · rw [List.length_take]
    omega
  · rcases hlast2 with h | h
    · rw [h]; simp
    · by_cases hz : stripLoop (inp.take n) n = 0
      · rw [hz]; simp
      · rw [getLast?_take_of_le inp _ (by omega) hz]; exact h

/-- C5 for the six characters ` a b  ` of an array of eight: the result is ` a b`. -/
theorem fortran_string_set_strips_trailing_blanks_witness :
    ∃ k : Nat, openmm_string_set_ [' ', 'a', ' ', 'b', ' ', ' ', 'z', 'z'] 6
        = some ([' ', 'a', ' ', 'b', ' ', ' ', 'z', 'z'].take k) ∧ (k : Int) ≤ 6 ∧
      (k = 0 ∨ [' ', 'a', ' ', 'b', ' ', ' ', 'z', 'z'][k - 1]? ≠ some ' ') ∧
      (∀ k2 : Nat, (k2 : Int) ≤ 6 →
        (k2 = 0 ∨ [' ', 'a', ' ', 'b', ' ', ' ', 'z', 'z'][k2 - 1]? ≠ some ' ') → k2 ≤ k) ∧
      ((([' ', 'a', ' ', 'b', ' ', ' ', 'z', 'z'].take k).length : Nat) : Int) ≤ 6 ∧
      ([' ', 'a', ' ', 'b', ' ', ' ', 'z', 'z'].take k).getLast? ≠ some ' ' :=
  fortran_string_set_strips_trailing_blanks [' ', 'a', ' ', 'b', ' ', ' ', 'z', 'z'] 6
    (by decide) (by decide)

/-! ## C6: set followed by get -/

/-- C6. For every array, every index `i` with `0 <= i < size` and every value `v`:
`OpenMM_Vec3Array_set` (resp. `OpenMM_BondArray_set`) succeeds, and in the array it leaves
`get` at `i` returns `v`, `get` at every other index `j` returns what it returned before, and
the size is unchanged. -/
theorem set_get_round_trip {D : Type} (a : List (Vec3 D)) (b : IntPairs) (i j : Int)
    (v : OpenMM_Vec3 D) (p1 p2 : Int)
    (hi : 0 ≤ i ∧ i < OpenMM_Vec3Array_size a) (hj : 0 ≤ j ∧ j < OpenMM_BondArray_size b) :
    (∃ a2, OpenMM_Vec3Array_set a i v = some a2 ∧
      OpenMM_Vec3Array_get a2 i = some v ∧
      (∀ k : Int, k ≠ i → OpenMM_Vec3Array_get a2 k = OpenMM_Vec3Array_get a k) ∧
      OpenMM_Vec3Array_size a2 = OpenMM_Vec3Array_size a) ∧
    (∃ b2, OpenMM_BondArray_set b j p1 p2 = some b2 ∧
      OpenMM_BondArray_get b2 j = some (p1, p2) ∧
      (∀ k : Int, k ≠ j → OpenMM_BondArray_get b2 k = OpenMM_BondArray_get b k) ∧
      OpenMM_BondArray_size b2 = OpenMM_BondArray_size b) := by
  obtain ⟨hi1, hi2⟩ := hi
  obtain ⟨hj1, hj2⟩ := hj
  unfold OpenMM_Vec3Array_size at hi2 ⊢
  unfold OpenMM_BondArray_size at hj2 ⊢
  obtain ⟨n, rfl⟩ : ∃ n : Nat, i = (n : Int) := ⟨i.toNat, (Int.toNat_of_nonneg hi1).symm⟩
  obtain ⟨m, rfl⟩ : ∃ m : Nat, j = (m : Int) := ⟨j.toNat, (Int.toNat_of_nonneg hj1).symm⟩
  have hna : n < a.length := by omega
  have hmb : m < b.length := by omega
  refine ⟨⟨a.set n (toVec3 v), vecWrite_natCast _ _ _ hna, ?_, ?_, by simp⟩,
    ⟨b.set m (p1, p2), vecWrite_natCast _ _ _ hmb, ?_, ?_, by simp⟩⟩
  · simp [OpenMM_Vec3Array_get, vecRead_natCast, hna, fromVec3_toVec3]
  · intro k hk
    rcases int_cases_index k with hneg | ⟨k, rfl⟩
    · simp [OpenMM_Vec3Array_get, vecRead_neg _ _ hneg]
    · have hne : n ≠ k := fun h => hk (by rw [h])
      simp [OpenMM_Vec3Array_get, vecRead_natCast, List.getElem?_set_ne hne]
  · simp [bondGet_natCast, hmb]
  · intro k hk
    rcases int_cases_index k with hneg | ⟨k, rfl⟩
    · simp [bondGet_neg _ _ hneg]
    · have hne : m ≠ k := fun h => hk (by rw [h])
      simp [bondGet_natCast, List.getElem?_set_ne hne]

/-- C6 on two-element arrays, setting the element `1`. -/
theorem set_get_round_trip_witness :
    (∃ a2, OpenMM_Vec3Array_set [(⟨1, 2, 3⟩ : Vec3 Int), ⟨4, 5, 6⟩] 1 ⟨7, 8, 9⟩ = some a2 ∧
      OpenMM_Vec3Array_get a2 1 = some ⟨7, 8, 9⟩ ∧
      (∀ k : Int, k ≠ 1 →
        OpenMM_Vec3Array_get a2 k = OpenMM_Vec3Array_get [(⟨1, 2, 3⟩ : Vec3 Int), ⟨4, 5, 6⟩] k) ∧
      OpenMM_Vec3Array_size a2 = OpenMM_Vec3Array_size [(⟨1, 2, 3⟩ : Vec3 Int), ⟨4, 5, 6⟩]) ∧
    (∃ b2, OpenMM_BondArray_set [(1, 2), (3, 4)] 1 8 9 = some b2 ∧
      OpenMM_BondArray_get b2 1 = some (8, 9) ∧
      (∀ k : Int, k ≠ 1 → OpenMM_BondArray_get b2 k = OpenMM_BondArray_get [(1, 2), (3, 4)] k) ∧
      OpenMM_BondArray_size b2 = OpenMM_BondArray_size [(1, 2), (3, 4)]) :=
  set_get_round_trip [(⟨1, 2, 3⟩ : Vec3 Int), ⟨4, 5, 6⟩] [(1, 2), (3, 4)] 1 1 ⟨7, 8, 9⟩ 8 9
    (by decide) (by decide)

/-! ## C7: append -/

/-- C8. For every `n >= 0`, `OpenMM_Vec3Array_create(n)` and `OpenMM_BondArray_create(n)`
return an array whose size, as reported by `OpenMM_Vec3Array_size` / `OpenMM_BondArray_size`,
is exactly `n`, and every element of the fresh bond array is the pair `(0, 0)`. -/
theorem create_has_size {D : Type} (dflt : Vec3 D) (n : Int) (hn : 0 ≤ n) :
    (∃ a, OpenMM_Vec3Array_create dflt n = some a ∧ OpenMM_Vec3Array_size a = n) ∧
    (∃ b, OpenMM_BondArray_create n = some b ∧ OpenMM_BondArray_size b = n ∧
      ∀ i : Int, 0 ≤ i → i < n → OpenMM_BondArray_get b i = some (0, 0)) := by
  obtain ⟨m, rfl⟩ : ∃ m : Nat, n = (m : Int) := ⟨n.toNat, (Int.toNat_of_nonneg hn).symm⟩
  refine ⟨⟨List.replicate m dflt, by simp [OpenMM_Vec3Array_create],
      by simp [OpenMM_Vec3Array_size]⟩,
    ⟨List.replicate m (0, 0), by simp [OpenMM_BondArray_create],
      by simp [OpenMM_BondArray_size], ?_⟩⟩
  intro i h0 h1
  obtain ⟨k, rfl⟩ : ∃ k : Nat, i = (k : Int) := ⟨i.toNat, (Int.toNat_of_nonneg h0).symm⟩
  have hk : k < m := by omega
  simp [bondGet_natCast, hk]

/-- C8 for `n = 3`. -/
theorem create_has_size_witness :
    (∃ a, OpenMM_Vec3Array_create (⟨0, 0, 0⟩ : Vec3 Int) 3 = some a ∧
      OpenMM_Vec3Array_size a = 3) ∧
    (∃ b, OpenMM_BondArray_create 3 = some b ∧ OpenMM_BondArray_size b = 3 ∧
      ∀ i : Int, 0 ≤ i → i < 3 → OpenMM_BondArray_get b i = some (0, 0)) :=
  create_has_size (⟨0, 0, 0⟩ : Vec3 Int) 3 (by decide)

/-! ## C9: the Fortran forms of the C functions -/

set_option maxRecDepth 100000 in
/-- C9, as stated, fails: `OpenMM_String_get` (line 217) is a C function of the wrapper that
neither of its Fortran forms calls (`openmm_string_get_` pads with blanks itself, and there is
no uppercase form), and `OpenMM_Vec3Array_create` (line 61) is a C function called by its
lowercase-underscore Fortran form but by no uppercase Fortran form; so not every C function
has both forms calling it. -/
theorem c_functions_without_both_forms :
    ((⟨"OpenMM_String_get", 217, []⟩ : FnDef) ∈ exported ∧
      isCFunction "OpenMM_String_get" = true ∧
      hasLowerForm fileSections "OpenMM_String_get" = false ∧
      hasUpperForm fileSections "OpenMM_String_get" = false) ∧
    ((⟨"OpenMM_Vec3Array_create", 61, []⟩ : FnDef) ∈ exported ∧
      isCFunction "OpenMM_Vec3Array_create" = true ∧
      hasLowerForm fileSections "OpenMM_Vec3Array_create" = true ∧
      hasUpperForm fileSections "OpenMM_Vec3Array_create" = false) ∧
    ¬ (∀ f ∈ exported, isCFunction f.name = true →
        hasLowerForm fileSections f.name = true ∧ hasUpperForm fileSections f.name = true) := by
  have hmem : (⟨"OpenMM_String_get", 217, []⟩ : FnDef) ∈ exported := by
    simp [exported, stringFns]
  have hmem2 : (⟨"OpenMM_Vec3Array_create", 61, []⟩ : FnDef) ∈ exported := by
    simp [exported, vec3ArrayFns]
  have hlow : hasLowerForm fileSections "OpenMM_String_get" = false := by decide
  refine ⟨⟨hmem, by decide, hlow, by decide⟩, ⟨hmem2, by decide, by decide, by decide⟩,
    fun h => ?_⟩
  have h2 := (h _ hmem (by decide)).1
  rw [hlow] at h2
  exact Bool.false_ne_true h2

set_option maxRecDepth 100000 in
set_option maxHeartbeats 4000000 in
/-- C9, amended. The functions of the file are those of its sections.  Every C function of the
sections BondArray, NonbondedForce, HarmonicBondForce, HarmonicAngleForce and
PeriodicTorsionForce is called by a lowercase-underscore Fortran form and by an uppercase
Fortran form of its section.  Every C function of the wrapper is called by a
lowercase-underscore Fortran form of its section, except `OpenMM_Vec3_scale`,
`OpenMM_String_create`, `OpenMM_String_getAsC`, `OpenMM_String_get`, `OpenMM_String_set` and
`OpenMM_Context_getPlatformName`, which no Fortran form of their section calls: for all of
them but `OpenMM_String_getAsC` the file defines the function that gfortran names after them,
and that function does the work without calling them; for `OpenMM_String_getAsC` the file
defines no function under the name gfortran or ifort gives it. -/
theorem fortran_forms_of_c_functions :
    exported = fileSections.flatten ∧
    (∀ f ∈ threeFormFns, isCFunction f.name = true →
      hasLowerForm fileSections f.name = true ∧ hasUpperForm fileSections f.name = true) ∧
    (∀ f ∈ exported, isCFunction f.name = true →
      hasLowerForm fileSections f.name = true ∨ f.name ∈ cOnlyFns) ∧
    (∀ n ∈ cOnlyFns,
      hasLowerForm fileSections n = false ∧ hasUpperForm fileSections n = false) ∧
    (∀ n ∈ reimplementedFns, ∃ g ∈ exported, g.name = gfortranName n ∧ n ∉ g.calls) ∧
    (∀ g ∈ exported, g.name ≠ gfortranName "OpenMM_String_getAsC" ∧
      g.name ≠ ifortName "OpenMM_String_getAsC") := by
  refine ⟨?_, ?_, ?_, ?_, ?_, ?_⟩
  · simp [exported, fileSections]
  · decide
  · decide
  · decide
  · decide
  · decide

set_option maxRecDepth 100000 in
/-- C9, amended, at `OpenMM_BondArray_get` (line 166): both of its Fortran forms call it. -/
theorem fortran_forms_of_c_functions_witness :
    hasLowerForm fileSections "OpenMM_BondArray_get" = true ∧
    hasUpperForm fileSections "OpenMM_BondArray_get" = true :=
  fortran_forms_of_c_functions.2.1 ⟨"OpenMM_BondArray_get", 166, []⟩
    (by simp [threeFormFns, bondArrayFns]) (by decide)

/-! ## C10: the force objects forward to the engine -/

/-- C10, as stated, fails at `OpenMM_NonbondedForce_create`: its one engine call is the
constructor `NonbondedForce()`, called on no object, so it is not a call of a method named
`create` on the object behind a handle. -/
theorem create_calls_the_constructor :
    (run sampleEngine OpenMM_NonbondedForce_create).calls
      = [⟨"NonbondedForce", "NonbondedForce", none, []⟩] ∧
    ¬ ∃ self : Nat,
        Forwards sampleEngine "NonbondedForce" "create" self [] true false
          (run sampleEngine OpenMM_NonbondedForce_create) := by
  refine ⟨rfl, ?_⟩
  rintro ⟨self, call, hcalls, -, -, hself, -⟩
  have hcall : call = ⟨"NonbondedForce", "NonbondedForce", none, []⟩ :=
    (List.cons.inj hcalls.symm).1
  rw [hcall] at hself
  exact Option.noConfusion hself

/-- C10, amended. Run against any engine, every C function of NonbondedForce, GBSAOBCForce,
HarmonicBondForce, HarmonicAngleForce and PeriodicTorsionForce other than `create` and
`destroy` makes exactly one engine call, of the method of the same name of its class, on the
object behind its handle, passing its input arguments with unchanged values and in the same order; a function
with a return value returns the value of the engine, and a function with out-parameters leaves
in them the outputs of the engine, in the same order.  Each `create` makes exactly one engine
call, of the constructor of its class without arguments, and returns its value; each `destroy`
makes exactly one engine call, of the destructor on the object behind a non-null handle (none
for a null handle), and returns nothing. -/
theorem force_wrappers_forward {D : Type} (engine : Engine D) :
    (∀ (nbf : Nat) (method : Int),
      Forwards engine "NonbondedForce" "setNonbondedMethod" nbf [.int method]
        false false (run engine (OpenMM_NonbondedForce_setNonbondedMethod nbf method))) ∧
    (∀ (nbf : Nat),
      Forwards engine "NonbondedForce" "getNonbondedMethod" nbf []
        true false (run engine (OpenMM_NonbondedForce_getNonbondedMethod nbf))) ∧
    (∀ (nbf : Nat) (d : D),
      Forwards engine "NonbondedForce" "setCutoffDistance" nbf [.real d]
        false false (run engine (OpenMM_NonbondedForce_setCutoffDistance nbf d))) ∧
    (∀ (nbf : Nat),
      Forwards engine "NonbondedForce" "getCutoffDistance" nbf []
        true false (run engine (OpenMM_NonbondedForce_getCutoffDistance nbf))) ∧
    (∀ (nbf : Nat) (a b c : OpenMM_Vec3 D),
      Forwards engine "NonbondedForce" "setPeriodicBoxVectors" nbf [.vec3 (asVec3 a), .vec3 (asVec3 b), .vec3 (asVec3 c)]
        false false (run engine (OpenMM_NonbondedForce_setPeriodicBoxVectors nbf a b c))) ∧
    (∀ (nbf : Nat),
      Forwards engine "NonbondedForce" "getPeriodicBoxVectors" nbf []
        false true (run engine (OpenMM_NonbondedForce_getPeriodicBoxVectors nbf))) ∧
    (∀ (nbf : Nat) (charge sigmaInNm vdwEnergyInKJ : D),
      Forwards engine "NonbondedForce" "addParticle" nbf [.real charge, .real sigmaInNm, .real vdwEnergyInKJ]
        true false (run engine (OpenMM_NonbondedForce_addParticle nbf charge sigmaInNm vdwEnergyInKJ))) ∧
    (∀ (nbf : Nat) (index : Int) (charge sigmaInNm vdwEnergyInKJ : D),
      Forwards engine "NonbondedForce" "setParticleParameters" nbf [.int index, .real charge, .real sigmaInNm, .real vdwEnergyInKJ]
        false false (run engine (OpenMM_NonbondedForce_setParticleParameters nbf index charge sigmaInNm vdwEnergyInKJ))) ∧
    (∀ (nbf : Nat) (index : Int),
      Forwards engine "NonbondedForce" "getParticleParameters" nbf [.int index]
        false true (run engine (OpenMM_NonbondedForce_getParticleParameters nbf index))) ∧
    (∀ (nbf : Nat),
      Forwards engine "NonbondedForce" "getNumParticles" nbf []
        true false (run engine (OpenMM_NonbondedForce_getNumParticles nbf))) ∧
    (∀ (nbf : Nat),
      Forwards engine "NonbondedForce" "getNumExceptions" nbf []
        true false (run engine (OpenMM_NonbondedForce_getNumExceptions nbf))) ∧
    (∀ (nbf : Nat) (p1 p2 : Int) (chargeProd sigmaInNm vdwEnergyInKJ : D),
      Forwards engine "NonbondedForce" "addException" nbf [.int p1, .int p2, .real chargeProd, .real sigmaInNm, .real vdwEnergyInKJ]
        true false (run engine (OpenMM_NonbondedForce_addException nbf p1 p2 chargeProd sigmaInNm vdwEnergyInKJ))) ∧
    (∀ (nbf : Nat) (index p1 p2 : Int) (chargeProd sigmaInNm vdwEnergyInKJ : D),
      Forwards engine "NonbondedForce" "setExceptionParameters" nbf [.int index, .int p1, .int p2, .real chargeProd, .real sigmaInNm, .real vdwEnergyInKJ]
        false false (run engine (OpenMM_NonbondedForce_setExceptionParameters nbf index p1 p2 chargeProd sigmaInNm vdwEnergyInKJ))) ∧
    (∀ (nbf : Nat) (index : Int),
      Forwards engine "NonbondedForce" "getExceptionParameters" nbf [.int index]
        false true (run engine (OpenMM_NonbondedForce_getExceptionParameters nbf index))) ∧
    (∀ (nbf : Nat) (ba : IntPairs) (coulomb14Scale lj14Scale : D),
      Forwards engine "NonbondedForce" "createExceptionsFromBonds" nbf [.pairs ba, .real coulomb14Scale, .real lj14Scale]
        false false (run engine (OpenMM_NonbondedForces_createExceptionsFromBonds nbf ba coulomb14Scale lj14Scale))) ∧
    (∀ (gbsa : Nat) (d : D),
      Forwards engine "GBSAOBCForce" "setSolventDielectric" gbsa [.real d]
        false false (run engine (OpenMM_GBSAOBCForce_setSolventDielectric gbsa d))) ∧
    (∀ (gbsa : Nat) (d : D),
      Forwards engine "GBSAOBCForce" "setSoluteDielectric" gbsa [.real d]
        false false (run engine (OpenMM_GBSAOBCForce_setSoluteDielectric gbsa d))) ∧
    (∀ (gbsa : Nat) (charge radiusInNm scalingFactor : D),
      Forwards engine "GBSAOBCForce" "addParticle" gbsa [.real charge, .real radiusInNm, .real scalingFactor]
        false false (run engine (OpenMM_GBSAOBCForce_addParticle gbsa charge radiusInNm scalingFactor))) ∧
    (∀ (hbf : Nat),
      Forwards engine "HarmonicBondForce" "getNumBonds" hbf []
        true false (run engine (OpenMM_HarmonicBondForce_getNumBonds hbf))) ∧
    (∀ (hbf : Nat) (p1 p2 : Int) (len k : D),
      Forwards engine "HarmonicBondForce" "addBond" hbf [.int p1, .int p2, .real len, .real k]
        true false (run engine (OpenMM_HarmonicBondForce_addBond hbf p1 p2 len k))) ∧
    (∀ (hbf : Nat) (ix p1 p2 : Int) (len k : D),
      Forwards engine "HarmonicBondForce" "setBondParameters" hbf [.int ix, .int p1, .int p2, .real len, .real k]
        false false (run engine (OpenMM_HarmonicBondForce_setBondParameters hbf ix p1 p2 len k))) ∧
    (∀ (hbf : Nat) (ix : Int),
      Forwards engine "HarmonicBondForce" "getBondParameters" hbf [.int ix]
        false true (run engine (OpenMM_HarmonicBondForce_getBondParameters hbf ix))) ∧
    (∀ (haf : Nat),
      Forwards engine "HarmonicAngleForce" "getNumAngles" haf []
        true false (run engine (OpenMM_HarmonicAngleForce_getNumAngles haf))) ∧
    (∀ (haf : Nat) (p1 p2 p3 : Int) (angle k : D),
      Forwards engine "HarmonicAngleForce" "addAngle" haf [.int p1, .int p2, .int p3, .real angle, .real k]
        true false (run engine (OpenMM_HarmonicAngleForce_addAngle haf p1 p2 p3 angle k))) ∧
    (∀ (haf : Nat) (ix p1 p2 p3 : Int) (angle k : D),
      Forwards engine "HarmonicAngleForce" "setAngleParameters" haf [.int ix, .int p1, .int p2, .int p3, .real angle, .real k]
        false false (run engine (OpenMM_HarmonicAngleForce_setAngleParameters haf ix p1 p2 p3 angle k))) ∧
    (∀ (haf : Nat) (ix : Int),
      Forwards engine "HarmonicAngleForce" "getAngleParameters" haf [.int ix]
        false true (run engine (OpenMM_HarmonicAngleForce_getAngleParameters haf ix))) ∧
    (∀ (haf : Nat),
      Forwards engine "PeriodicTorsionForce" "getNumTorsions" haf []
        true false (run engine (OpenMM_PeriodicTorsionForce_getNumTorsions haf))) ∧
    (∀ (haf : Nat) (p1 p2 p3 p4 periodicity : Int) (phase k : D),
      Forwards engine "PeriodicTorsionForce" "addTorsion" haf [.int p1, .int p2, .int p3, .int p4, .int periodicity, .real phase, .real k]
        true false (run engine (OpenMM_PeriodicTorsionForce_addTorsion haf p1 p2 p3 p4 periodicity phase k))) ∧
    (∀ (haf : Nat) (ix p1 p2 p3 p4 periodicity : Int) (phase k : D),
      Forwards engine "PeriodicTorsionForce" "setTorsionParameters" haf [.int ix, .int p1, .int p2, .int p3, .int p4, .int periodicity, .real phase, .real k]
        false false (run engine (OpenMM_PeriodicTorsionForce_setTorsionParameters haf ix p1 p2 p3 p4 periodicity phase k))) ∧
    (∀ (haf : Nat) (ix : Int),
      Forwards engine "PeriodicTorsionForce" "getTorsionParameters" haf [.int ix]
        false true (run engine (OpenMM_PeriodicTorsionForce_getTorsionParameters haf ix))) ∧
    ((run engine OpenMM_NonbondedForce_create).calls = [⟨"NonbondedForce", "NonbondedForce", none, []⟩] ∧
      (run engine OpenMM_NonbondedForce_create).value = (engine ⟨"NonbondedForce", "NonbondedForce", none, []⟩).value) ∧
    (∀ doomed : Nat,
      (run engine (OpenMM_NonbondedForce_destroy doomed)).calls
          = (if doomed = 0 then [] else [⟨"NonbondedForce", "~NonbondedForce", some doomed, []⟩]) ∧
        (run engine (OpenMM_NonbondedForce_destroy doomed)).value = none) ∧
    ((run engine OpenMM_GBSAOBCForce_create).calls = [⟨"GBSAOBCForce", "GBSAOBCForce", none, []⟩] ∧
      (run engine OpenMM_GBSAOBCForce_create).value = (engine ⟨"GBSAOBCForce", "GBSAOBCForce", none, []⟩).value) ∧
    (∀ doomed : Nat,
      (run engine (OpenMM_GBSAOBCForce_destroy doomed)).calls
          = (if doomed = 0 then [] else [⟨"GBSAOBCForce", "~GBSAOBCForce", some doomed, []⟩]) ∧
        (run engine (OpenMM_GBSAOBCForce_destroy doomed)).value = none) ∧
    ((run engine OpenMM_HarmonicBondForce_create).calls = [⟨"HarmonicBondForce", "HarmonicBondForce", none, []⟩] ∧
      (run engine OpenMM_HarmonicBondForce_create).value = (engine ⟨"HarmonicBondForce", "HarmonicBondForce", none, []⟩).value) ∧
    (∀ doomed : Nat,
      (run engine (OpenMM_HarmonicBondForce_destroy doomed)).calls
          = (if doomed = 0 then [] else [⟨"HarmonicBondForce", "~HarmonicBondForce", some doomed, []⟩]) ∧
        (run engine (OpenMM_HarmonicBondForce_destroy doomed)).value = none) ∧
    ((run engine OpenMM_HarmonicAngleForce_create).calls = [⟨"HarmonicAngleForce", "HarmonicAngleForce", none, []⟩] ∧
      (run engine OpenMM_HarmonicAngleForce_create).value = (engine ⟨"HarmonicAngleForce", "HarmonicAngleForce", none, []⟩).value) ∧
    (∀ doomed : Nat,
      (run engine (OpenMM_HarmonicAngleForce_destroy doomed)).calls
          = (if doomed = 0 then [] else [⟨"HarmonicAngleForce", "~HarmonicAngleForce", some doomed, []⟩]) ∧
        (run engine (OpenMM_HarmonicAngleForce_destroy doomed)).value = none) ∧
    ((run engine OpenMM_PeriodicTorsionForce_create).calls = [⟨"PeriodicTorsionForce", "PeriodicTorsionForce", none, []⟩] ∧
      (run engine OpenMM_PeriodicTorsionForce_create).value = (engine ⟨"PeriodicTorsionForce", "PeriodicTorsionForce", none, []⟩).value) ∧
    (∀ doomed : Nat,
      (run engine (OpenMM_PeriodicTorsionForce_destroy doomed)).calls
          = (if doomed = 0 then [] else [⟨"PeriodicTorsionForce", "~PeriodicTorsionForce", some doomed, []⟩]) ∧
        (run engine (OpenMM_PeriodicTorsionForce_destroy doomed)).value = none) :=
  ⟨fun _ _ => ⟨_, rfl, rfl, rfl, rfl, rfl, rfl, rfl⟩,
    fun _ => ⟨_, rfl, rfl, rfl, rfl, rfl, rfl, rfl⟩,
    fun _ _ => ⟨_, rfl, rfl, rfl, rfl, rfl, rfl, rfl⟩,
    fun _ => ⟨_, rfl, rfl, rfl, rfl, rfl, rfl, rfl⟩,
    fun _ _ _ _ => ⟨_, rfl, rfl, rfl, rfl, rfl, rfl, rfl⟩,
    fun _ => ⟨_, rfl, rfl, rfl, rfl, rfl, rfl, rfl⟩,
    fun _ _ _ _ => ⟨_, rfl, rfl, rfl, rfl, rfl, rfl, rfl⟩,
    fun _ _ _ _ _ => ⟨_, rfl, rfl, rfl, rfl, rfl, rfl, rfl⟩,
    fun _ _ => ⟨_, rfl, rfl, rfl, rfl, rfl, rfl, rfl⟩,
    fun _ => ⟨_, rfl, rfl, rfl, rfl, rfl, rfl, rfl⟩,
    fun _ => ⟨_, rfl, rfl, rfl, rfl, rfl, rfl, rfl⟩,
    fun _ _ _ _ _ _ => ⟨_, rfl, rfl, rfl, rfl, rfl, rfl, rfl⟩,
    fun _ _ _ _ _ _ _ => ⟨_, rfl, rfl, rfl, rfl, rfl, rfl, rfl⟩,
    fun _ _ => ⟨_, rfl, rfl, rfl, rfl, rfl, rfl, rfl⟩,
    fun _ _ _ _ => ⟨_, rfl, rfl, rfl, rfl, rfl, rfl, rfl⟩,
    fun _ _ => ⟨_, rfl, rfl, rfl, rfl, rfl, rfl, rfl⟩,
    fun _ _ => ⟨_, rfl, rfl, rfl, rfl, rfl, rfl, rfl⟩,
    fun _ _ _ _ => ⟨_, rfl, rfl, rfl, rfl, rfl, rfl, rfl⟩,
    fun _ => ⟨_, rfl, rfl, rfl, rfl, rfl, rfl, rfl⟩,
    fun _ _ _ _ _ => ⟨_, rfl, rfl, rfl, rfl, rfl, rfl, rfl⟩,
    fun _ _ _ _ _ _ => ⟨_, rfl, rfl, rfl, rfl, rfl, rfl, rfl⟩,
    fun _ _ => ⟨_, rfl, rfl, rfl, rfl, rfl, rfl, rfl⟩,
    fun _ => ⟨_, rfl, rfl, rfl, rfl, rfl, rfl, rfl⟩,
    fun _ _ _ _ _ _ => ⟨_, rfl, rfl, rfl, rfl, rfl, rfl, rfl⟩,
    fun _ _ _ _ _ _ _ => ⟨_, rfl, rfl, rfl, rfl, rfl, rfl, rfl⟩,
    fun _ _ => ⟨_, rfl, rfl, rfl, rfl, rfl, rfl, rfl⟩,
    fun _ => ⟨_, rfl, rfl, rfl, rfl, rfl, rfl, rfl⟩,
    fun _ _ _ _ _ _ _ _ => ⟨_, rfl, rfl, rfl, rfl, rfl, rfl, rfl⟩,
    fun _ _ _ _ _ _ _ _ _ => ⟨_, rfl, rfl, rfl, rfl, rfl, rfl, rfl⟩,
    fun _ _ => ⟨_, rfl, rfl, rfl, rfl, rfl, rfl, rfl⟩,
    ⟨rfl, rfl⟩,
    fun doomed => by
      by_cases h : doomed = 0 <;> simp [OpenMM_NonbondedForce_destroy, run, EngineProg.exec, h],
    ⟨rfl, rfl⟩,
    fun doomed => by
      by_cases h : doomed = 0 <;> simp [OpenMM_GBSAOBCForce_destroy, run, EngineProg.exec, h],
    ⟨rfl, rfl⟩,
    fun doomed => by
      by_cases h : doomed = 0 <;> simp [OpenMM_HarmonicBondForce_destroy, run, EngineProg.exec, h],
    ⟨rfl, rfl⟩,
    fun doomed => by
      by_cases h : doomed = 0 <;> simp [OpenMM_HarmonicAngleForce_destroy, run, EngineProg.exec, h],
    ⟨rfl, rfl⟩,
    fun doomed => by
      by_cases h : doomed = 0 <;> simp [OpenMM_PeriodicTorsionForce_destroy, run, EngineProg.exec, h]⟩

/-- C10, amended, with the sample engine: `OpenMM_NonbondedForce_addException` makes the one
call `NonbondedForce::addException(1, 2, 3, 4, 5)` on the object `9` and returns the value `7`
that the sample engine gives to that call. -/
theorem force_wrappers_forward_witness :
    (run sampleEngine (OpenMM_NonbondedForce_addException 9 1 2 3 4 5)).calls
      = [⟨"NonbondedForce", "addException", some 9,
          [.int 1, .int 2, .real 3, .real 4, .real 5]⟩] ∧
    (run sampleEngine (OpenMM_NonbondedForce_addException 9 1 2 3 4 5)).value
      = some (.int 7) := by
  obtain ⟨call, hcalls, hcls, hmember, hself, hargs, hvalue, -⟩ :=
    (force_wrappers_forward sampleEngine).2.2.2.2.2.2.2.2.2.2.2.1 9 1 2 3 4 5
  have hcall : call = ⟨"NonbondedForce", "addException", some 9,
      [.int 1, .int 2, .real 3, .real 4, .real 5]⟩ := by
    cases call
    simp only at hcls hmember hself hargs
    rw [hcls, hmember, hself, hargs]
  rw [hcalls, hvalue, hcall]
  exact ⟨rfl, rfl⟩

/-! ## C11: the names of the Fortran forms -/

set_option maxRecDepth 100000 in
set_option maxHeartbeats 4000000 in
/-- C11 fails at `OpenMM_PeriodicTorsionForce_getNumTorsions` (line 664).  The header of the file
says that gfortran turns a name into all-lowercase with an underscore appended and ifort into
all-uppercase; that gives `openmm_periodictorsionforce_getnumtorsions_` and
`OPENMM_PERIODICTORSIONFORCE_GETNUMTORSIONS`.  The Fortran forms that call the function are
instead named `openmm_periodictorsionforce_getnumangles_` (line 666) and
`OPENMM_PERIODICTORSIONFORCE_GETNUMANGLES` (line 668), and no function of the file has either
of the two names the conventions give.  Every other Fortran form that calls C functions follows
the conventions: a lowercase-underscore form is named as gfortran names a C function it calls,
an uppercase form as ifort names one. -/
theorem getNumTorsions_forms_are_misnamed :
    (⟨"OpenMM_PeriodicTorsionForce_getNumTorsions", 664, []⟩ : FnDef) ∈ exported ∧
    isCFunction "OpenMM_PeriodicTorsionForce_getNumTorsions" = true ∧
    gfortranName "OpenMM_PeriodicTorsionForce_getNumTorsions"
      = "openmm_periodictorsionforce_getnumtorsions_" ∧
    ifortName "OpenMM_PeriodicTorsionForce_getNumTorsions"
      = "OPENMM_PERIODICTORSIONFORCE_GETNUMTORSIONS" ∧
    lowerFormsOf exported "OpenMM_PeriodicTorsionForce_getNumTorsions"
      = ["openmm_periodictorsionforce_getnumangles_"] ∧
    upperFormsOf exported "OpenMM_PeriodicTorsionForce_getNumTorsions"
      = ["OPENMM_PERIODICTORSIONFORCE_GETNUMANGLES"] ∧
    (∀ g ∈ exported,
      g.name ≠ gfortranName "OpenMM_PeriodicTorsionForce_getNumTorsions" ∧
      g.name ≠ ifortName "OpenMM_PeriodicTorsionForce_getNumTorsions") ∧
    (∀ g ∈ exported, g.calls ≠ [] →
      g.name ∉ ["openmm_periodictorsionforce_getnumangles_",
        "OPENMM_PERIODICTORSIONFORCE_GETNUMANGLES"] →
      (isLowerForm g.name = true → ∃ f ∈ g.calls, g.name = gfortranName f) ∧
      (isUpperForm g.name = true → ∃ f ∈ g.calls, g.name = ifortName f)) := by
  refine ⟨?_, ?_, ?_, ?_, ?_, ?_, ?_, ?_⟩
  · simp [exported, periodicTorsionForceFns]
  · decide
  · decide
  · decide
  · decide
  · decide
  · decide
  · decide

set_option maxRecDepth 100000 in
/-- C11: the conventions at `openmm_bondarray_size_` (line 139), which calls
`OpenMM_BondArray_size` and is named as gfortran names it. -/
theorem getNumTorsions_forms_are_misnamed_witness :
    ∃ f ∈ ["OpenMM_BondArray_size"], "openmm_bondarray_size_" = gfortranName f :=
  (getNumTorsions_forms_are_misnamed.2.2.2.2.2.2.2
    ⟨"openmm_bondarray_size_", 139, ["OpenMM_BondArray_size"]⟩
    (by simp [exported, bondArrayFns]) (by decide) (by decide)).1 (by decide)

end OpenMMWrapper
